import Mathlib

/-!
Verification development for the Transcripto transcript-summarization core.

The Python sources under src/ are shallowly embedded: pure functions become
Lean functions, raised exceptions become Except.error carrying the exception
message, the HTTP backend becomes an explicit oracle argument
(String → Except String _) mapping a prompt to the backend outcome, and the
wall clock becomes explicit rational-number arguments.  Backend call counts
are threaded as an explicit Nat component so that statements about how many
generation requests a code path issues can be made.
-/

namespace Transcripto

/-- Embedding of Python str.strip(): drop leading and trailing whitespace.
Implemented structurally over the character list so the kernel can evaluate it. -/
def pyStrip (s : String) : String :=
  ⟨((s.data.dropWhile Char.isWhitespace).reverse.dropWhile Char.isWhitespace).reverse⟩

/-- Helper for pyWordCount: accumulate maximal runs of non-whitespace characters,
mirroring Python str.split() with no separator argument. -/
def wordsAux : List Char → List Char → List (List Char)
  | [], acc => if acc.isEmpty then [] else [acc.reverse]
  | c :: cs, acc =>
    if c.isWhitespace then
      (if acc.isEmpty then wordsAux cs [] else acc.reverse :: wordsAux cs [])
    else wordsAux cs (c :: acc)

/-- Embedding of len(text.split()) in Python: the number of whitespace-separated words. -/
def pyWordCount (s : String) : Nat := (wordsAux s.data []).length

/-- Embedding of Python str.rstrip(c): drop trailing occurrences of one character. -/
def pyRstripChar (s : String) (c : Char) : String :=
  ⟨(s.data.reverse.dropWhile (fun d => d = c)).reverse⟩

/-- Response record of the Ollama client, from the OllamaResponse dataclass in
src/src/services/ollama_service.py. -/
structure OllamaResponse where
  content : String
  model : String
  total_duration : Option Int := none
  load_duration : Option Int := none
  prompt_eval_count : Option Int := none
  eval_count : Option Int := none
deriving DecidableEq

/-- Decoded JSON body of a generation response as the client reads it:
each field access in the source is result.get(key) or result.get(key, default),
so every field is optional here. -/
structure OllamaBody where
  response : Option String := none
  model : Option String := none
  total_duration : Option Int := none
  load_duration : Option Int := none
  prompt_eval_count : Option Int := none
  eval_count : Option Int := none
deriving DecidableEq

/-- Embedding of the response-decoding expression shared by generate_sync and
generate_async (ollama_service.py lines 112-119 and 163-170): content defaults
to the empty string, the model name defaults to the model requested by the
service instance, metric fields default to absent. -/
def decodeOllamaBody (requestedModel : String) (body : OllamaBody) : OllamaResponse :=
  { content := body.response.getD ""
    model := body.model.getD requestedModel
    total_duration := body.total_duration
    load_duration := body.load_duration
    prompt_eval_count := body.prompt_eval_count
    eval_count := body.eval_count }

/-- State of an aiohttp ClientSession as far as the client code observes it:
after close() the object still exists (the attribute stays set) but is closed. -/
structure ClientSession where
  closed : Bool
deriving DecidableEq

/-- Embedding of the OllamaService instance state set up in OllamaService.__init__. -/
structure OllamaService where
  base_url : String
  model : String
  timeout : Nat
  session : Option ClientSession
deriving DecidableEq

/-- Embedding of OllamaService.__init__: trailing slashes are stripped from the
base URL and no session exists yet. -/
def ollamaInit (base_url : String) (model : String) (timeout : Nat) : OllamaService :=
  { base_url := pyRstripChar base_url '/', model := model, timeout := timeout, session := none }

/-- Embedding of OllamaService.__aenter__: opens a fresh aiohttp ClientSession. -/
def aenterService (svc : OllamaService) : OllamaService :=
  { svc with session := some { closed := false } }

/-- Embedding of OllamaService.__aexit__: closes the session if one exists.
The session attribute is not reset to None; it keeps referencing the now
closed session object. -/
def aexitService (svc : OllamaService) : OllamaService :=
  { svc with session := svc.session.map (fun s => { s with closed := true }) }

/-- Outcome of one HTTP POST to the generation endpoint, as seen by the client:
either a transport/parse failure with its message, or a status code with a
decoded JSON body. -/
def HttpOutcome : Type := Except String (Nat × OllamaBody)

/-- Embedding of OllamaService.generate_sync (ollama_service.py lines 75-126).
The HTTP layer is the explicit argument http.  A transport failure or a
non-success status (raise_for_status fires for status codes of 400 and above)
becomes an Except.error carrying the message of the exception the source
raises; otherwise the body is decoded exactly as in the source. -/
def generate_sync (svc : OllamaService) (http : String → HttpOutcome) (prompt : String) :
    Except String OllamaResponse :=
  match http prompt with
  | .error e => .error ("Error communicating with Ollama: " ++ e)
  | .ok (status, body) =>
    if 400 ≤ status then
      .error ("Error communicating with Ollama: HTTP status " ++ toString status)
    else
      .ok (decodeOllamaBody svc.model body)

/-- Embedding of OllamaService.generate_async (ollama_service.py lines 128-175),
paired with the number of HTTP requests it issues.  With no session the source
raises before building any request; with a closed session aiohttp rejects the
post call before any request goes out; otherwise one request is issued and the
body is decoded exactly as in generate_sync. -/
def generate_async (svc : OllamaService) (http : String → HttpOutcome) (prompt : String) :
    Except String OllamaResponse × Nat :=
  match svc.session with
  | none => (.error "Session not initialized. Use async context manager.", 0)
  | some sess =>
    if sess.closed then
      (.error "Session is closed", 0)
    else
      match http prompt with
      | .error e => (.error ("Error communicating with Ollama: " ++ e), 1)
      | .ok (status, body) =>
        if 400 ≤ status then
          (.error ("Error communicating with Ollama: HTTP status " ++ toString status), 1)
        else
          (.ok (decodeOllamaBody svc.model body), 1)

/-- Sequencing of a list of already-computed request outcomes: the first failure
aborts the whole batch, otherwise all results are collected in order.  This is
the result collection performed by asyncio.gather over the task list built in
generate_multiple_async. -/
def collectAll {α : Type} : List (Except String α) → Except String (List α)
  | [] => .ok []
  | .error e :: _ => .error e
  | .ok a :: rest => (collectAll rest).map (fun l => a :: l)

/-- Embedding of OllamaService.generate_multiple_async (ollama_service.py lines
177-197), paired with the number of HTTP requests issued: without a session the
source raises before creating any task; otherwise one task per prompt is
dispatched and asyncio.gather joins them, failing as a whole if any task fails.
The request count is the sum of the per-task counts: one per task under an open
session, none under a closed session, where each task's post raises before any
request goes out. -/
def generate_multiple_async (svc : OllamaService) (http : String → HttpOutcome)
    (prompts : List String) : Except String (List OllamaResponse) × Nat :=
  match svc.session with
  | none => (.error "Session not initialized. Use async context manager.", 0)
  | some _ =>
    (collectAll (prompts.map (fun p => (generate_async svc http p).1)),
     (prompts.map (fun p => (generate_async svc http p).2)).sum)

/-- Slot table of an asyncio.gather run: task i writes its outcome into slot i.
The completionOrder list is the order in which the event loop finishes the
tasks; every index below the task count appears in it once the join completes. -/
def gatherSlots {α : Type} (f : Nat → Except String α) (n : Nat)
    (completionOrder : List Nat) : List (Option (Except String α)) :=
  completionOrder.foldl (fun acc i => acc.set i (some (f i))) (List.replicate n none)

/-- Collection step of asyncio.gather once all tasks completed: read the slots
in task order, a still-pending slot or a failed task aborting the batch. -/
def collectSlots {α : Type} : List (Option (Except String α)) → Except String (List α)
  | [] => .ok []
  | none :: _ => .error "pending task"
  | some (.error e) :: _ => .error e
  | some (.ok a) :: rest => (collectSlots rest).map (fun l => a :: l)

/-- Scheduled model of asyncio.gather as used by generate_multiple_async: the
tasks complete in the given order, each writing its slot by task index, and the
results are then read back in task order. -/
def gatherByCompletion {α : Type} (f : Nat → Except String α) (n : Nat)
    (completionOrder : List Nat) : Except String (List α) :=
  collectSlots (gatherSlots f n completionOrder)

/-- Scheduled embedding of generate_multiple_async: like generate_multiple_async
but with the completion order of the concurrently running tasks made explicit;
the request count is again the sum of the per-task counts. -/
def generate_multiple_async_sched (svc : OllamaService) (http : String → HttpOutcome)
    (prompts : List String) (completionOrder : List Nat) :
    Except String (List OllamaResponse) × Nat :=
  match svc.session with
  | none => (.error "Session not initialized. Use async context manager.", 0)
  | some _ =>
    (gatherByCompletion (fun i => (generate_async svc http (prompts.getD i "")).1)
      prompts.length completionOrder,
     (prompts.map (fun p => (generate_async svc http p).2)).sum)

/-- Modelled from the spec: the chunker module src/core/chunker.py is imported
by both summarizers but is not among the source files; spec section 3 gives the
Chunk record as content, 0-based index and character offsets.  Only the content
field is read by the code under src/. -/
structure TextChunk where
  content : String
  index : Nat := 0
  start_offset : Nat := 0
  end_offset : Nat := 0
deriving DecidableEq

/-- Opening of the chunk prompt text up to the position marker, from the
f-string of _create_chunk_summary_prompt (identical in summarizer.py lines
192-208 and simple_summarizer.py lines 53-69). -/
def chunkPromptIntro : String :=
  "You are an expert at summarizing transcript content. Please provide a concise but comprehensive summary of the following transcript segment.\n\nThis is chunk "

/-- Separator between the chunk number and the chunk total in the chunk prompt. -/
def chunkPromptOf : String := " of "

/-- Chunk prompt text between the chunk total and the inserted segment text. -/
def chunkPromptBody : String :=
  " from a larger transcript.\n\nKey requirements:\n- Capture the main topics and key points discussed\n- Preserve important details, names, and specific information\n- Keep the summary focused and well-structured\n- Maintain the chronological flow of information\n- Use clear, professional language\n\nTranscript segment:\n"

/-- Closing of the chunk prompt after the inserted segment text. -/
def chunkPromptTail : String := "\n\nSummary:"

/-- Embedding of _create_chunk_summary_prompt: the f-string is the
concatenation of fixed text with the chunk number, the chunk total and the
chunk text inserted verbatim. -/
def create_chunk_summary_prompt (chunk_text : String) (chunk_num : Nat) (total_chunks : Nat) :
    String :=
  chunkPromptIntro ++ toString chunk_num ++ chunkPromptOf ++ toString total_chunks ++
    chunkPromptBody ++ chunk_text ++ chunkPromptTail

/-- Opening of the final-summary prompt before the inserted combined summaries,
from the f-string of _create_final_summary_prompt (identical in summarizer.py
lines 210-224 and simple_summarizer.py lines 71-85). -/
def finalPromptIntro : String :=
  "You are an expert at creating comprehensive summaries from multiple related text segments. Below are summaries of different parts of a transcript. Please create a final, cohesive summary that:\n\n1. Integrates all the key information from the segments\n2. Maintains logical flow and structure\n3. Eliminates redundancy while preserving important details\n4. Provides a clear overview of the main topics and conclusions\n5. Uses professional, clear language\n6. Organizes information in a helpful way for the reader\n\nSegment summaries:\n"

/-- Closing of the final-summary prompt after the inserted combined summaries. -/
def finalPromptTail : String := "\n\nPlease provide a comprehensive final summary:"

/-- Embedding of _create_final_summary_prompt: fixed text with the combined
summaries inserted verbatim. -/
def create_final_summary_prompt (combined_summaries : String) : String :=
  finalPromptIntro ++ combined_summaries ++ finalPromptTail

/-- Processing-stats dictionary of the LangGraph workflow.  The source builds a
Python dict incrementally, so every key is optional here and reads go through
getD mirroring dict.get with a default. -/
structure ProcessingStats where
  start_time : Option ℚ := none
  original_length : Option Nat := none
  original_words : Option Nat := none
  chunks_created : Option Nat := none
  chunking_strategy : Option String := none
  single_chunk : Option Bool := none
  chunks_summarized : Option Nat := none
  end_time : Option ℚ := none
  processing_time : Option ℚ := none
  final_summary_length : Option Nat := none
  final_summary_words : Option Nat := none
  compression_ratio : Option ℚ := none

/-- Embedding of the SummarizationState TypedDict of summarizer.py. -/
structure SummarizationState where
  original_text : String
  chunks : Option (List TextChunk)
  chunk_summaries : Option (List String)
  final_summary : String
  processing_stats : Option ProcessingStats
  error : Option String

/-- Embedding of the SummarizationResult dataclass of summarizer.py. -/
structure SummarizationResult where
  summary : String
  original_length : Nat
  summary_length : Nat
  chunks_processed : Nat
  processing_time : ℚ
  compression_ratio : ℚ
  error : Option String := none

/-- Embedding of the SimpleSummarizationResult dataclass of simple_summarizer.py. -/
structure SimpleSummarizationResult where
  summary : String
  original_length : Nat
  summary_length : Nat
  chunks_processed : Nat
  processing_time : ℚ
  compression_ratio : ℚ
  error : Option String := none

/-- Python truthiness of the optional error string: None and the empty string
are falsy, any other string is truthy.  Used by every if state.get of the
workflow stages. -/
def optStrTruthy : Option String → Bool
  | none => false
  | some s => !s.isEmpty

/-- Python truthiness of an optional list: None and the empty list are falsy. -/
def optListTruthy {α : Type} : Option (List α) → Bool
  | none => false
  | some l => !l.isEmpty

/-- Embedding of the per-chunk prompt list comprehension shared by
summarizer.py lines 111-114 and simple_summarizer.py lines 126-129: one chunk
prompt per chunk, numbered from 1, with the total chunk count. -/
def chunkPrompts (chunks : List TextChunk) : List String :=
  chunks.enum.map (fun p => create_chunk_summary_prompt p.2.content (p.1 + 1) chunks.length)

/-- Embedding of _process_chunks_async (summarizer.py lines 183-190 and
simple_summarizer.py lines 44-51): enter the service's async context (which
opens the session), dispatch all prompts through generate_multiple_async, and
strip each returned content.  The temperature option does not influence the
modelled outcome and is absorbed into the http argument. -/
def process_chunks_async (svc : OllamaService) (http : String → HttpOutcome)
    (prompts : List String) : Except String (List String) :=
  ((generate_multiple_async (aenterService svc) http prompts).1).map
    (fun rs => rs.map (fun r => pyStrip r.content))

/-- Embedding of the parse_input node (summarizer.py lines 62-74): reject
input whose stripped text is empty, otherwise record the starting stats. -/
def parse_input (t0 : ℚ) (s : SummarizationState) : SummarizationState :=
  if pyStrip s.original_text = "" then
    { s with error := some "Empty input text" }
  else
    let st : ProcessingStats :=
      { start_time := some t0
        original_length := some s.original_text.length
        original_words := some (pyWordCount s.original_text) }
    { s with processing_stats := some st }

/-- Embedding of the chunk_text node (summarizer.py lines 76-96): short-circuit
on a truthy error, otherwise chunk the text, recording chunk stats; a raised
chunking exception is captured into the error field with its message. -/
def chunk_text (chunker : String → Except String (List TextChunk)) (s : SummarizationState) :
    SummarizationState :=
  if optStrTruthy s.error then s
  else
    match chunker s.original_text with
    | .error e => { s with error := some ("Error chunking text: " ++ e) }
    | .ok chunks =>
      let st := s.processing_stats.getD {}
      let st := { st with chunks_created := some chunks.length,
                          chunking_strategy := some "sentence-based" }
      let st := if chunks.length = 1 then { st with single_chunk := some true } else st
      { s with chunks := some chunks, processing_stats := some st }

/-- Embedding of the summarize_chunks node (summarizer.py lines 98-125), paired
with the number of backend generation requests the node issues: short-circuit
on a truthy error or missing/empty chunks; with exactly one chunk its raw
content becomes the chunk summary with no backend call; otherwise one prompt
per chunk is dispatched concurrently, a failure being captured into the error
field with its message. -/
def summarize_chunks (svc : OllamaService) (http : String → HttpOutcome)
    (s : SummarizationState) : SummarizationState × Nat :=
  if optStrTruthy s.error || !(optListTruthy s.chunks) then (s, 0)
  else
    match s.chunks.getD [] with
    | [c] => ({ s with chunk_summaries := some [c.content] }, 0)
    | chunks =>
      let prompts := chunkPrompts chunks
      match process_chunks_async svc http prompts with
      | .error e =>
        ({ s with error := some ("Error summarizing chunks: " ++ e) }, prompts.length)
      | .ok summaries =>
        ({ s with chunk_summaries := some summaries,
                  processing_stats := some
                    { s.processing_stats.getD {} with chunks_summarized := some summaries.length } },
         prompts.length)

/-- Embedding of the create_final_summary node (summarizer.py lines 127-163),
paired with the number of backend generation requests issued: short-circuit on
a truthy error or missing/empty chunk summaries; otherwise join the summaries,
issue one synchronous generation call, and record the final stats, a failure
being captured into the error field with its message. -/
def create_final_summary (svc : OllamaService) (http : String → HttpOutcome) (t1 : ℚ)
    (s : SummarizationState) : SummarizationState × Nat :=
  if optStrTruthy s.error || !(optListTruthy s.chunk_summaries) then (s, 0)
  else
    let combined := String.intercalate "\n\n" (s.chunk_summaries.getD [])
    match generate_sync svc http (create_final_summary_prompt combined) with
    | .error e => ({ s with error := some ("Error creating final summary: " ++ e) }, 1)
    | .ok resp =>
      let final := pyStrip resp.content
      let st := s.processing_stats.getD {}
      let st := { st with
        end_time := some t1
        processing_time := some (t1 - st.start_time.getD 0)
        final_summary_length := some final.length
        final_summary_words := some (pyWordCount final)
        compression_ratio := some
          (if final.isEmpty then 0 else (s.original_text.length : ℚ) / (final.length : ℚ)) }
      ({ s with final_summary := final, processing_stats := some st }, 1)

/-- Composition of the four workflow nodes in the linear order wired into the
LangGraph StateGraph (summarizer.py lines 165-181), paired with the total
number of backend generation requests issued. -/
def workflow_run (svc : OllamaService) (http : String → HttpOutcome)
    (chunker : String → Except String (List TextChunk)) (t0 t1 : ℚ) (text : String) :
    SummarizationState × Nat :=
  let s0 : SummarizationState :=
    { original_text := text, chunks := none, chunk_summaries := none,
      final_summary := "", processing_stats := none, error := none }
  let s1 := parse_input t0 s0
  let s2 := chunk_text chunker s1
  let p3 := summarize_chunks svc http s2
  let p4 := create_final_summary svc http t1 p3.1
  (p4.1, p3.2 + p4.2)

/-- Embedding of TranscriptSummarizer.summarize_text (summarizer.py lines
282-325), paired with the number of backend generation requests issued: run the
workflow, then build either the error result (empty summary, zeroed stats,
the workflow's error) or the success result read off the stats dictionary with
the defaults the source passes to dict.get. -/
def summarize_text (svc : OllamaService) (http : String → HttpOutcome)
    (chunker : String → Except String (List TextChunk)) (t0 t1 : ℚ) (text : String) :
    SummarizationResult × Nat :=
  let p := workflow_run svc http chunker t0 t1 text
  let s := p.1
  if optStrTruthy s.error then
    ({ summary := "", original_length := text.length, summary_length := 0,
       chunks_processed := 0, processing_time := 0, compression_ratio := 0,
       error := s.error }, p.2)
  else
    let st := s.processing_stats.getD {}
    ({ summary := s.final_summary
       original_length := st.original_length.getD 0
       summary_length := st.final_summary_length.getD 0
       chunks_processed := st.chunks_summarized.getD 0
       processing_time := st.processing_time.getD 0
       compression_ratio := st.compression_ratio.getD 0
       error := none }, p.2)

/-- Embedding of SimpleTranscriptSummarizer.summarize_text
(simple_summarizer.py lines 87-168), paired with the number of backend
generation requests issued: chunk, then either report the no-chunks marker
result, summarize a single chunk with one direct final-summary call, or run
the two-stage fan-out plus reduction; any raised exception is caught and its
message returned in the error field with an empty summary. -/
def simple_summarize_text (svc : OllamaService) (http : String → HttpOutcome)
    (chunker : String → Except String (List TextChunk)) (t0 t1 : ℚ) (text : String) :
    SimpleSummarizationResult × Nat :=
  match chunker text with
  | .error e =>
    ({ summary := "", original_length := text.length, summary_length := 0,
       chunks_processed := 0, processing_time := t1 - t0, compression_ratio := 0,
       error := some e }, 0)
  | .ok [] =>
    ({ summary := "No content to summarize.", original_length := text.length,
       summary_length := 0, chunks_processed := 0, processing_time := t1 - t0,
       compression_ratio := 0, error := some "No chunks created from input text" }, 0)
  | .ok [c] =>
    match generate_sync svc http (create_final_summary_prompt c.content) with
    | .error e =>
      ({ summary := "", original_length := text.length, summary_length := 0,
         chunks_processed := 0, processing_time := t1 - t0, compression_ratio := 0,
         error := some e }, 1)
    | .ok resp =>
      let final := pyStrip resp.content
      ({ summary := final, original_length := text.length, summary_length := final.length,
         chunks_processed := 1, processing_time := t1 - t0,
         compression_ratio := if final.isEmpty then 0 else (text.length : ℚ) / (final.length : ℚ),
         error := none }, 1)
  | .ok chunks =>
    let prompts := chunkPrompts chunks
    match process_chunks_async svc http prompts with
    | .error e =>
      ({ summary := "", original_length := text.length, summary_length := 0,
         chunks_processed := 0, processing_time := t1 - t0, compression_ratio := 0,
         error := some e }, prompts.length)
    | .ok chunk_summaries =>
      let combined := String.intercalate "\n\n" chunk_summaries
      match generate_sync svc http (create_final_summary_prompt combined) with
      | .error e =>
        ({ summary := "", original_length := text.length, summary_length := 0,
           chunks_processed := 0, processing_time := t1 - t0, compression_ratio := 0,
           error := some e }, prompts.length + 1)
      | .ok resp =>
        let final := pyStrip resp.content
        ({ summary := final, original_length := text.length, summary_length := final.length,
           chunks_processed := chunks.length, processing_time := t1 - t0,
           compression_ratio := if final.isEmpty then 0 else (text.length : ℚ) / (final.length : ℚ),
           error := none }, prompts.length + 1)

/-- Concrete service instance with an open session, for concrete evaluations. -/
def svcW : OllamaService := aenterService (ollamaInit "http://u/" "m" 5)

/-- Concrete backend that always answers 200 with content needing trimming. -/
def httpOkW : String → HttpOutcome := fun _ => .ok (200, { response := some " S S " })

/-- Concrete backend that always fails at the transport layer. -/
def httpFailW : String → HttpOutcome := fun _ => .error "connection refused"

/-- Modelled from the spec: stand-in for TextChunker.chunk_by_sentences (the
chunker module is absent from src) on empty or whitespace-only input, which the
spec says yields the empty chunk sequence. -/
def chunkerEmptyW : String → Except String (List TextChunk) := fun _ => .ok []

/-- Modelled from the spec: stand-in for TextChunker.chunk_by_sentences on
input shorter than the chunk size, which the spec says yields exactly one
chunk covering the whole text. -/
def chunkerOneW : String → Except String (List TextChunk) := fun _ => .ok [{ content := "Hello." }]

/-- Concrete chunker outcome with two chunks, for concrete evaluations of the
fan-out path. -/
def chunkerTwoW : String → Except String (List TextChunk) :=
  fun _ => .ok [{ content := "A." }, { content := "B." }]

/-- Leading fixed text of the chunk prompt, before the position marker. -/
theorem chunkPromptIntro_split :
    chunkPromptIntro =
      "You are an expert at summarizing transcript content. Please provide a concise but comprehensive summary of the following transcript segment.\n\n"
        ++ "This is chunk " := rfl

/-- C8: the prompt builders are pure string transforms: the chunk prompt is
fixed text around the verbatim chunk text with the position stated as chunk i
of N, the final prompt is fixed text around the verbatim combined summaries,
and equal inputs give equal prompts. -/
theorem prompt_builders_pure_verbatim :
    ∀ (t : String) (i n : Nat),
      create_chunk_summary_prompt t i n =
        (chunkPromptIntro ++ toString i ++ chunkPromptOf ++ toString n ++ chunkPromptBody)
          ++ t ++ chunkPromptTail
      ∧ (∃ a b : String,
          create_chunk_summary_prompt t i n =
            a ++ ("This is chunk " ++ toString i ++ " of " ++ toString n) ++ b)
      ∧ create_final_summary_prompt t = finalPromptIntro ++ t ++ finalPromptTail
      ∧ (∀ (t2 : String) (i2 n2 : Nat), t = t2 → i = i2 → n = n2 →
          create_chunk_summary_prompt t i n = create_chunk_summary_prompt t2 i2 n2) := by
  intro t i n
  refine ⟨?_, ?_, ?_, ?_⟩
  · simp [create_chunk_summary_prompt, String.append_assoc]
  · refine ⟨"You are an expert at summarizing transcript content. Please provide a concise but comprehensive summary of the following transcript segment.\n\n",
      chunkPromptBody ++ t ++ chunkPromptTail, ?_⟩
    simp only [create_chunk_summary_prompt, chunkPromptIntro_split, chunkPromptOf,
      String.append_assoc]
  · simp [create_final_summary_prompt, String.append_assoc]
  · intro t2 i2 n2 ht hi hn
    subst ht; subst hi; subst hn
    exact rfl

/-- Witness for C8 at concrete inputs. -/
theorem prompt_builders_pure_verbatim_witness :
    create_chunk_summary_prompt "x" 1 2 =
      (chunkPromptIntro ++ toString 1 ++ chunkPromptOf ++ toString 2 ++ chunkPromptBody)
        ++ "x" ++ chunkPromptTail
    ∧ create_chunk_summary_prompt "x" 1 2 = create_chunk_summary_prompt "x" 1 2 :=
  ⟨(prompt_builders_pure_verbatim "x" 1 2).1,
   (prompt_builders_pure_verbatim "x" 1 2).2.2.2 "x" 1 2 rfl rfl rfl⟩

/-- C9: a successful backend body missing the content field decodes to empty
content rather than crashing, and the declared model name is surfaced without
validation against the requested one, falling back to the requested name when
absent; both generate_sync and generate_async decode this way. -/
theorem response_decoding_defaults :
    ∀ (svc : OllamaService) (http : String → HttpOutcome) (prompt : String)
      (status : Nat) (body : OllamaBody),
      http prompt = .ok (status, body) → status < 400 →
      generate_sync svc http prompt = .ok (decodeOllamaBody svc.model body)
      ∧ (svc.session = some { closed := false } →
          (generate_async svc http prompt).1 = .ok (decodeOllamaBody svc.model body))
      ∧ (body.response = none → (decodeOllamaBody svc.model body).content = "")
      ∧ (∀ d, body.model = some d → (decodeOllamaBody svc.model body).model = d)
      ∧ (body.model = none → (decodeOllamaBody svc.model body).model = svc.model) := by
  intro svc http prompt status body hhttp hstatus
  have hnot : ¬ 400 ≤ status := Nat.not_le.mpr hstatus
  refine ⟨?_, ?_, ?_, ?_, ?_⟩
  · simp [generate_sync, hhttp, hnot]
  · intro hs
    simp [generate_async, hs, hhttp, hnot]
  · intro hr
    simp [decodeOllamaBody, hr]
  · intro d hd
    simp [decodeOllamaBody, hd]
  · intro hm
    simp [decodeOllamaBody, hm]

/-- Witness for C9: a 200 body with no content field and a mismatching declared
model name. -/
theorem response_decoding_defaults_witness :
    generate_sync svcW (fun _ => .ok (200, { model := some "other" }))
        "p" = .ok (decodeOllamaBody svcW.model { model := some "other" })
    ∧ (decodeOllamaBody svcW.model { model := some "other" }).model = "other" :=
  ⟨(response_decoding_defaults svcW (fun _ => .ok (200, { model := some "other" }))
      "p" 200 { model := some "other" } rfl (by decide)).1,
   (response_decoding_defaults svcW (fun _ => .ok (200, { model := some "other" }))
      "p" 200 { model := some "other" } rfl (by decide)).2.2.2.1 "other" rfl⟩

/-- Concrete service after one full context-manager cycle: the session
attribute still holds the closed session object. -/
def svcClosedW : OllamaService := aexitService (aenterService (ollamaInit "u" "m" 5))

/-- Counterexample to C10 as stated: after the async context manager has
exited, the caller is outside the manager, yet generate_async does not raise
the not-initialized message; the closed-session failure is raised instead. -/
theorem session_guard_counterexample :
    (generate_async svcClosedW httpOkW "p").1 = .error "Session is closed"
    ∧ (generate_async svcClosedW httpOkW "p").1
        ≠ .error "Session not initialized. Use async context manager." := by
  refine ⟨rfl, ?_⟩
  rw [show (generate_async svcClosedW httpOkW "p").1 = .error "Session is closed" from rfl]
  simp

/-- Summing a list of zeros gives zero. -/
theorem sum_map_zero {α : Type} (l : List α) : (l.map (fun _ => (0 : Nat))).sum = 0 := by
  induction l with
  | nil => rfl
  | cons a t ih => simp [ih]

/-- C10 amended: while the session attribute is still None (before any context
manager entry) both generate_async and generate_multiple_async fail with
exactly the not-initialized message and issue no request; after the context
manager exits, the attribute still references the closed session, so that
guard does not fire and instead generate_async — and generate_multiple_async
on any non-empty prompt list — fails with the closed-session error, again
issuing no request. -/
theorem session_guard_amended :
    ∀ (svc : OllamaService) (http : String → HttpOutcome) (prompt : String)
      (prompts : List String),
      (svc.session = none →
        generate_async svc http prompt =
          (.error "Session not initialized. Use async context manager.", 0)
        ∧ generate_multiple_async svc http prompts =
          (.error "Session not initialized. Use async context manager.", 0))
      ∧ (aexitService (aenterService svc)).session ≠ none
      ∧ generate_async (aexitService (aenterService svc)) http prompt =
          (.error "Session is closed", 0)
      ∧ (prompts ≠ [] →
          generate_multiple_async (aexitService (aenterService svc)) http prompts =
            (.error "Session is closed", 0)) := by
  intro svc http prompt prompts
  have hga : ∀ q, generate_async (aexitService (aenterService svc)) http q =
      (.error "Session is closed", 0) := by
    intro q
    simp [generate_async, aexitService, aenterService]
  refine ⟨fun hs => ⟨?_, ?_⟩, ?_, hga prompt, ?_⟩
  · simp [generate_async, hs]
  · simp [generate_multiple_async, hs]
  · simp [aexitService, aenterService]
  · intro hne
    cases prompts with
    | nil => exact absurd rfl hne
    | cons p rest =>
      have hsum : (((p :: rest).map
          (fun q => (generate_async (aexitService (aenterService svc)) http q).2)).sum) = 0 := by
        rw [show ((p :: rest).map
            (fun q => (generate_async (aexitService (aenterService svc)) http q).2))
            = ((p :: rest).map (fun _ => (0 : Nat))) from
          List.map_congr_left (fun q _ => by rw [hga q])]
        exact sum_map_zero (p :: rest)
      unfold generate_multiple_async
      rw [show (aexitService (aenterService svc)).session = some { closed := true } from rfl]
      rw [hsum]
      rw [show ((p :: rest).map
          (fun q => (generate_async (aexitService (aenterService svc)) http q).1))
          = .error "Session is closed"
            :: (rest.map (fun q => (generate_async (aexitService (aenterService svc)) http q).1))
        from by rw [List.map_cons, hga p]]
      rfl

/-- Witness for C10 amended at a freshly initialized service, also exercising
the post-exit closed-session batch call on a non-empty prompt list. -/
theorem session_guard_amended_witness :
    (generate_async (ollamaInit "u" "m" 5) httpOkW "p" =
      (.error "Session not initialized. Use async context manager.", 0)
    ∧ generate_multiple_async (ollamaInit "u" "m" 5) httpOkW ["p", "q"] =
      (.error "Session not initialized. Use async context manager.", 0))
    ∧ generate_multiple_async (aexitService (aenterService (ollamaInit "u" "m" 5)))
        httpOkW ["p", "q"] = (.error "Session is closed", 0) :=
  ⟨(session_guard_amended (ollamaInit "u" "m" 5) httpOkW "p" ["p", "q"]).1 rfl,
   (session_guard_amended (ollamaInit "u" "m" 5) httpOkW "p" ["p", "q"]).2.2.2 (by simp)⟩

/-- Slot-table length is the task count, whatever the completion order. -/
theorem gatherSlots_length {α : Type} (f : Nat → Except String α) (n : Nat)
    (order : List Nat) : (gatherSlots f n order).length = n := by
  suffices h : ∀ (order : List Nat) (acc : List (Option (Except String α))),
      (order.foldl (fun acc i => acc.set i (some (f i))) acc).length = acc.length by
    simp [gatherSlots, h]
  intro order
  induction order with
  | nil => intro acc; rfl
  | cons j rest ih => intro acc; simp [List.foldl_cons, ih, List.length_set]

/-- Slot i of the table holds the outcome of task i once i has completed,
independently of when the other tasks complete: every write to slot i writes
that same outcome. -/
theorem gatherSlots_get {α : Type} (f : Nat → Except String α) (n : Nat) (order : List Nat)
    (i : Nat) (hi : i < n) (hmem : i ∈ order) :
    (gatherSlots f n order)[i]? = some (some (f i)) := by
  suffices h : ∀ (order : List Nat) (acc : List (Option (Except String α))), i < acc.length →
      (i ∈ order ∨ acc[i]? = some (some (f i))) →
      (order.foldl (fun acc j => acc.set j (some (f j))) acc)[i]? = some (some (f i)) by
    exact h order _ (by simp [hi]) (Or.inl hmem)
  clear hmem
  intro order
  induction order with
  | nil =>
    intro acc _ hdisj
    rcases hdisj with h | h
    · cases h
    · simpa using h
  | cons j rest ih =>
    intro acc hlen hdisj
    simp only [List.foldl_cons]
    apply ih
    · simpa [List.length_set] using hlen
    · rcases hdisj with hmem | hacc
      · rcases List.mem_cons.mp hmem with rfl | hmem2
        · exact Or.inr (List.getElem?_set_eq_of_lt _ hlen)
        · exact Or.inl hmem2
      · by_cases hij : j = i
        · subst hij; exact Or.inr (List.getElem?_set_eq_of_lt _ hlen)
        · exact Or.inr (by rw [List.getElem?_set_ne hij]; exact hacc)

/-- Once every task index has completed, the slot table is exactly the task
outcomes in task order. -/
theorem gatherSlots_covering {α : Type} (f : Nat → Except String α) (n : Nat)
    (order : List Nat) (hcov : ∀ i, i < n → i ∈ order) :
    gatherSlots f n order = (List.range n).map (fun i => some (f i)) := by
  apply List.ext_getElem?
  intro i
  by_cases hi : i < n
  · rw [gatherSlots_get f n order i hi (hcov i hi)]
    simp [List.getElem?_map, List.getElem?_range hi]
  · have h1 : (gatherSlots f n order).length ≤ i := by rw [gatherSlots_length]; omega
    have h2 : ((List.range n).map (fun i => some (f i))).length ≤ i := by simp; omega
    rw [List.getElem?_eq_none h1, List.getElem?_eq_none h2]

/-- Reading completed slots in task order is the sequential collection of the
task outcomes. -/
theorem collectSlots_map_some {α : Type} (l : List (Except String α)) :
    collectSlots (l.map (fun e => some e)) = collectAll l := by
  induction l with
  | nil => rfl
  | cons e rest ih => cases e <;> simp [collectSlots, collectAll, ih]

/-- Reading a list back through getD over its index range is the identity. -/
theorem range_map_getD {α β : Type} (l : List α) (d : α) (g : α → β) :
    (List.range l.length).map (fun i => g (l.getD i d)) = l.map g := by
  apply List.ext_getElem (by simp)
  intro i h1 h2
  simp only [List.getElem_map, List.getElem_range]
  rw [List.getD_eq_getElem l d (by simpa using h2)]

/-- Successful collection keeps one result per request. -/
theorem collectAll_ok_length {α : Type} {l : List (Except String α)} {rs : List α}
    (h : collectAll l = .ok rs) : rs.length = l.length := by
  induction l generalizing rs with
  | nil =>
    simp only [collectAll] at h
    cases h
    rfl
  | cons e rest ih =>
    cases e with
    | error e => simp [collectAll] at h
    | ok a =>
      simp only [collectAll] at h
      cases hrest : collectAll rest with
      | error e2 => rw [hrest] at h; simp [Except.map] at h
      | ok rs2 =>
        rw [hrest] at h
        simp only [Except.map] at h
        cases h
        simp [ih hrest]

/-- Successful collection aligns result i with request i. -/
theorem collectAll_ok_get {α : Type} {l : List (Except String α)} {rs : List α}
    (h : collectAll l = .ok rs) :
    ∀ (i : Nat) (h1 : i < l.length) (h2 : i < rs.length),
      l.get ⟨i, h1⟩ = .ok (rs.get ⟨i, h2⟩) := by
  induction l generalizing rs with
  | nil => intro i h1; cases h1
  | cons e rest ih =>
    cases e with
    | error e => simp [collectAll] at h
    | ok a =>
      simp only [collectAll] at h
      cases hrest : collectAll rest with
      | error e2 => rw [hrest] at h; simp [Except.map] at h
      | ok rs2 =>
        rw [hrest] at h
        simp only [Except.map] at h
        cases h
        intro i h1 h2
        cases i with
        | zero => rfl
        | succ k => exact ih hrest k (by simpa using h1) (by simpa using h2)

/-- A failed request anywhere in the batch fails the whole collection. -/
theorem collectAll_error_of_mem {α : Type} {l : List (Except String α)} {e : String}
    (i : Nat) (h1 : i < l.length) (he : l.get ⟨i, h1⟩ = .error e) :
    ∃ e2, collectAll l = .error e2 := by
  induction l generalizing i with
  | nil => cases h1
  | cons x rest ih =>
    cases i with
    | zero =>
      cases x with
      | error e0 => exact ⟨e0, rfl⟩
      | ok a => simp at he
    | succ k =>
      cases x with
      | error e0 => exact ⟨e0, rfl⟩
      | ok a =>
        obtain ⟨e2, h2⟩ := ih k (by simpa using h1) (by simpa using he)
        exact ⟨e2, by simp [collectAll, h2, Except.map]⟩

/-- C7: with an open session, generate_multiple_async with any completion
order of the concurrent tasks returns the same outcome as the sequential
collection: on success exactly one response per prompt, aligned with prompt
order, and the whole operation fails whenever any single request fails, never
returning a partial list. -/
theorem gather_aligned_all_or_nothing :
    ∀ (svc : OllamaService) (http : String → HttpOutcome) (prompts : List String)
      (order : List Nat),
      svc.session = some { closed := false } →
      (∀ i, i < prompts.length → i ∈ order) →
      generate_multiple_async_sched svc http prompts order
          = generate_multiple_async svc http prompts
      ∧ (∀ rs, (generate_multiple_async svc http prompts).1 = .ok rs →
          rs.length = prompts.length
          ∧ ∀ (i : Nat) (h1 : i < prompts.length) (h2 : i < rs.length),
              (generate_async svc http (prompts.get ⟨i, h1⟩)).1 = .ok (rs.get ⟨i, h2⟩))
      ∧ (∀ (i : Nat) (h1 : i < prompts.length) (e : String),
          (generate_async svc http (prompts.get ⟨i, h1⟩)).1 = .error e →
          ∃ e2, (generate_multiple_async svc http prompts).1 = .error e2) := by
  intro svc http prompts order hsession hcov
  have hdenote : (generate_multiple_async svc http prompts).1
      = collectAll (prompts.map (fun p => (generate_async svc http p).1)) := by
    simp [generate_multiple_async, hsession]
  refine ⟨?_, ?_, ?_⟩
  · simp only [generate_multiple_async_sched, generate_multiple_async, hsession,
      gatherByCompletion]
    rw [gatherSlots_covering _ _ _ hcov]
    rw [show (List.range prompts.length).map
          (fun i => some ((generate_async svc http (prompts.getD i "")).1))
        = ((List.range prompts.length).map
            (fun i => (generate_async svc http (prompts.getD i "")).1)).map
            (fun e => some e) by simp [List.map_map]]
    rw [collectSlots_map_some]
    rw [range_map_getD prompts "" (fun p => (generate_async svc http p).1)]
  · intro rs hok
    rw [hdenote] at hok
    refine ⟨by simpa using collectAll_ok_length hok, ?_⟩
    intro i h1 h2
    have := collectAll_ok_get hok i (by simpa using h1) h2
    rwa [List.get_map] at this
  · intro i h1 e he
    rw [hdenote]
    exact collectAll_error_of_mem i (by simpa using h1)
      (by rw [List.get_map]; exact he)

/-- Witness for C7: two prompts whose tasks complete in reverse order still
produce responses aligned with prompt order. -/
theorem gather_aligned_all_or_nothing_witness :
    generate_multiple_async_sched svcW httpOkW ["a", "b"] [1, 0]
      = generate_multiple_async svcW httpOkW ["a", "b"] :=
  (gather_aligned_all_or_nothing svcW httpOkW ["a", "b"] [1, 0] rfl (by decide)).1

/-- Appending to a non-empty string keeps it non-empty. -/
theorem append_ne_empty_left {a : String} (b : String) (h : a ≠ "") : a ++ b ≠ "" := by
  intro hab
  apply h
  have hdata : (a ++ b).data = [] := by rw [hab]
  rw [String.data_append] at hdata
  exact String.ext (List.append_eq_nil.mp hdata).1

/-- Truthiness of a present non-empty error string. -/
theorem optStrTruthy_some {s : String} (h : s ≠ "") : optStrTruthy (some s) = true := by
  cases hcase : s.isEmpty with
  | false => simp [optStrTruthy, hcase]
  | true => exact absurd ((String.isEmpty_iff s).mp hcase) h

/-- Stage short-circuit for chunk_text on a truthy error. -/
theorem chunk_text_error (chunker : String → Except String (List TextChunk))
    {s : SummarizationState} {e : String} (hs : s.error = some e) (he : e ≠ "") :
    chunk_text chunker s = s := by
  unfold chunk_text
  rw [hs, optStrTruthy_some he]
  rfl

/-- Stage short-circuit for summarize_chunks on a truthy error: no state change
and no backend call. -/
theorem summarize_chunks_error (svc : OllamaService) (http : String → HttpOutcome)
    {s : SummarizationState} {e : String} (hs : s.error = some e) (he : e ≠ "") :
    summarize_chunks svc http s = (s, 0) := by
  unfold summarize_chunks
  rw [hs, optStrTruthy_some he]
  rfl

/-- Stage short-circuit for create_final_summary on a truthy error: no state
change and no backend call. -/
theorem create_final_summary_error (svc : OllamaService) (http : String → HttpOutcome)
    (t1 : ℚ) {s : SummarizationState} {e : String} (hs : s.error = some e) (he : e ≠ "") :
    create_final_summary svc http t1 s = (s, 0) := by
  unfold create_final_summary
  rw [hs, optStrTruthy_some he]
  rfl

/-- C5: once a stage has set a (non-empty) error message, every later stage of
the workflow is a no-op returning the incoming state unchanged with zero
backend calls, and a run whose final state carries an error yields the result
with exactly that error message and the empty summary. -/
theorem error_short_circuit :
    ∀ (svc : OllamaService) (http : String → HttpOutcome)
      (chunker : String → Except String (List TextChunk)) (t0 t1 : ℚ) (text : String),
      (∀ (s : SummarizationState) (e : String), s.error = some e → e ≠ "" →
        chunk_text chunker s = s
        ∧ summarize_chunks svc http s = (s, 0)
        ∧ create_final_summary svc http t1 s = (s, 0))
      ∧ (∀ e : String,
          (workflow_run svc http chunker t0 t1 text).1.error = some e → e ≠ "" →
          (summarize_text svc http chunker t0 t1 text).1.summary = ""
          ∧ (summarize_text svc http chunker t0 t1 text).1.error = some e) := by
  intro svc http chunker t0 t1 text
  constructor
  · intro s e hs he
    exact ⟨chunk_text_error chunker hs he, summarize_chunks_error svc http hs he,
      create_final_summary_error svc http t1 hs he⟩
  · intro e hfinal he
    have htr : optStrTruthy (workflow_run svc http chunker t0 t1 text).1.error = true := by
      rw [hfinal]; exact optStrTruthy_some he
    unfold summarize_text
    simp only [htr, if_true]
    refine ⟨?_, ?_⟩
    · trivial
    · exact hfinal

/-- Witness for C5: a state already carrying an error passes through every
later stage unchanged with zero backend calls. -/
theorem error_short_circuit_witness :
    chunk_text chunkerOneW
        { original_text := "x", chunks := none, chunk_summaries := none,
          final_summary := "", processing_stats := none, error := some "boom" }
      = { original_text := "x", chunks := none, chunk_summaries := none,
          final_summary := "", processing_stats := none, error := some "boom" }
    ∧ summarize_chunks svcW httpOkW
        { original_text := "x", chunks := none, chunk_summaries := none,
          final_summary := "", processing_stats := none, error := some "boom" }
      = ({ original_text := "x", chunks := none, chunk_summaries := none,
           final_summary := "", processing_stats := none, error := some "boom" }, 0)
    ∧ create_final_summary svcW httpOkW 7
        { original_text := "x", chunks := none, chunk_summaries := none,
          final_summary := "", processing_stats := none, error := some "boom" }
      = ({ original_text := "x", chunks := none, chunk_summaries := none,
           final_summary := "", processing_stats := none, error := some "boom" }, 0) :=
  (error_short_circuit svcW httpOkW chunkerOneW 0 7 "x").1
    { original_text := "x", chunks := none, chunk_summaries := none,
      final_summary := "", processing_stats := none, error := some "boom" }
    "boom" rfl (by decide)

/-- Counterexample to C2 as stated: on whitespace-only input the LangGraph
entry point returns a non-null error (the parse_input rejection), not an
error-free marker result, and the simple entry point pairs the marker summary
with a non-null error. -/
theorem empty_input_counterexample :
    (summarize_text svcW httpOkW chunkerEmptyW 0 0 " ").1.error = some "Empty input text"
    ∧ (summarize_text svcW httpOkW chunkerEmptyW 0 0 " ").1.summary = ""
    ∧ (simple_summarize_text svcW httpOkW chunkerEmptyW 0 0 " ").1.error
        = some "No chunks created from input text" := by
  exact ⟨rfl, rfl, rfl⟩

/-- C2 amended: empty or whitespace-only input terminates with
chunks_processed = 0 and a non-null error: the LangGraph variant returns the
error Empty input text with an empty summary, while the simple variant (whose
chunker yields no chunks for such input) returns the marker summary together
with the error No chunks created from input text. -/
theorem empty_input_amended :
    ∀ (svc : OllamaService) (http : String → HttpOutcome)
      (chunker : String → Except String (List TextChunk)) (t0 t1 : ℚ) (text : String),
      pyStrip text = "" →
      ((summarize_text svc http chunker t0 t1 text).1 =
        { summary := "", original_length := text.length, summary_length := 0,
          chunks_processed := 0, processing_time := 0, compression_ratio := 0,
          error := some "Empty input text" }
      ∧ (summarize_text svc http chunker t0 t1 text).2 = 0)
      ∧ (chunker text = .ok [] →
          (simple_summarize_text svc http chunker t0 t1 text).1 =
            { summary := "No content to summarize.", original_length := text.length,
              summary_length := 0, chunks_processed := 0, processing_time := t1 - t0,
              compression_ratio := 0,
              error := some "No chunks created from input text" }
          ∧ (simple_summarize_text svc http chunker t0 t1 text).2 = 0) := by
  intro svc http chunker t0 t1 text hblank
  have hne : ("Empty input text" : String) ≠ "" := by decide
  constructor
  · have hs1 : parse_input t0
        { original_text := text, chunks := none, chunk_summaries := none,
          final_summary := "", processing_stats := none, error := none }
        = { original_text := text, chunks := none, chunk_summaries := none,
            final_summary := "", processing_stats := none,
            error := some "Empty input text" } := by
      unfold parse_input
      rw [if_pos hblank]
    have hct : chunk_text chunker
        { original_text := text, chunks := none, chunk_summaries := none,
          final_summary := "", processing_stats := none,
          error := some "Empty input text" }
        = { original_text := text, chunks := none, chunk_summaries := none,
            final_summary := "", processing_stats := none,
            error := some "Empty input text" } := chunk_text_error chunker rfl hne
    have hsc : summarize_chunks svc http
        { original_text := text, chunks := none, chunk_summaries := none,
          final_summary := "", processing_stats := none,
          error := some "Empty input text" }
        = ({ original_text := text, chunks := none, chunk_summaries := none,
             final_summary := "", processing_stats := none,
             error := some "Empty input text" }, 0) := summarize_chunks_error svc http rfl hne
    have hcf : create_final_summary svc http t1
        { original_text := text, chunks := none, chunk_summaries := none,
          final_summary := "", processing_stats := none,
          error := some "Empty input text" }
        = ({ original_text := text, chunks := none, chunk_summaries := none,
             final_summary := "", processing_stats := none,
             error := some "Empty input text" }, 0) :=
      create_final_summary_error svc http t1 rfl hne
    have hrun : workflow_run svc http chunker t0 t1 text
        = ({ original_text := text, chunks := none, chunk_summaries := none,
             final_summary := "", processing_stats := none,
             error := some "Empty input text" }, 0) := by
      unfold workflow_run
      simp only [hs1, hct, hsc, hcf]
    unfold summarize_text
    simp only [hrun, optStrTruthy_some hne, if_true]
    refine ⟨?_, ?_⟩ <;> trivial
  · intro hchunks
    unfold simple_summarize_text
    rw [hchunks]
    refine ⟨?_, ?_⟩ <;> trivial

/-- Witness for C2 amended on the whitespace-only input. -/
theorem empty_input_amended_witness :
    ((summarize_text svcW httpOkW chunkerEmptyW 0 3 " ").1 =
      { summary := "", original_length := (" " : String).length, summary_length := 0,
        chunks_processed := 0, processing_time := 0, compression_ratio := 0,
        error := some "Empty input text" }
    ∧ (summarize_text svcW httpOkW chunkerEmptyW 0 3 " ").2 = 0)
    ∧ ((simple_summarize_text svcW httpOkW chunkerEmptyW 0 3 " ").1 =
        { summary := "No content to summarize.", original_length := (" " : String).length,
          summary_length := 0, chunks_processed := 0, processing_time := 3 - 0,
          compression_ratio := 0,
          error := some "No chunks created from input text" }
      ∧ (simple_summarize_text svcW httpOkW chunkerEmptyW 0 3 " ").2 = 0) :=
  ⟨(empty_input_amended svcW httpOkW chunkerEmptyW 0 3 " " (by decide)).1,
   (empty_input_amended svcW httpOkW chunkerEmptyW 0 3 " " (by decide)).2 rfl⟩

/-- Stats recorded by parse_input on non-blank input. -/
def parseStats (t0 : ℚ) (text : String) : ProcessingStats :=
  { start_time := some t0, original_length := some text.length,
    original_words := some (pyWordCount text) }

/-- Stats update performed by chunk_text on a successful chunking. -/
def chunkStats (st : ProcessingStats) (n : Nat) : ProcessingStats :=
  let st := { st with chunks_created := some n, chunking_strategy := some "sentence-based" }
  if n = 1 then { st with single_chunk := some true } else st

/-- Stats update performed by create_final_summary on a successful generation. -/
def finalStats (st : ProcessingStats) (t1 : ℚ) (text : String) (final : String) :
    ProcessingStats :=
  { st with
    end_time := some t1
    processing_time := some (t1 - st.start_time.getD 0)
    final_summary_length := some final.length
    final_summary_words := some (pyWordCount final)
    compression_ratio := some
      (if final.isEmpty then 0 else (text.length : ℚ) / (final.length : ℚ)) }

/-- Behavior of parse_input on non-blank input: no error, starting stats. -/
theorem parse_input_nonblank (t0 : ℚ) (s : SummarizationState)
    (h : ¬ pyStrip s.original_text = "") :
    parse_input t0 s = { s with processing_stats := some (parseStats t0 s.original_text) } := by
  unfold parse_input parseStats
  rw [if_neg h]

/-- Behavior of chunk_text on an error-free state with successful chunking. -/
theorem chunk_text_ok (chunker : String → Except String (List TextChunk))
    {s : SummarizationState} (hs : s.error = none) {cs : List TextChunk}
    (hc : chunker s.original_text = .ok cs) :
    chunk_text chunker s =
      { s with chunks := some cs,
               processing_stats := some (chunkStats (s.processing_stats.getD {}) cs.length) } := by
  unfold chunk_text chunkStats
  rw [hs, hc]
  rfl

/-- Behavior of summarize_chunks on an error-free state holding exactly one
chunk: the chunk content becomes the summary, with no backend call. -/
theorem summarize_chunks_single (svc : OllamaService) (http : String → HttpOutcome)
    {s : SummarizationState} (hs : s.error = none) {c : TextChunk}
    (hc : s.chunks = some [c]) :
    summarize_chunks svc http s = ({ s with chunk_summaries := some [c.content] }, 0) := by
  unfold summarize_chunks
  rw [hs, hc]
  rfl

/-- Behavior of summarize_chunks on an error-free state holding at least two
chunks whose fan-out succeeds. -/
theorem summarize_chunks_multi_ok (svc : OllamaService) (http : String → HttpOutcome)
    {s : SummarizationState} (hs : s.error = none) {a b : TextChunk} {rest : List TextChunk}
    (hc : s.chunks = some (a :: b :: rest)) {sums : List String}
    (hproc : process_chunks_async svc http (chunkPrompts (a :: b :: rest)) = .ok sums) :
    summarize_chunks svc http s =
      ({ s with chunk_summaries := some sums,
                processing_stats := some
                  { s.processing_stats.getD {} with chunks_summarized := some sums.length } },
       (chunkPrompts (a :: b :: rest)).length) := by
  unfold summarize_chunks
  rw [hs, hc]
  simp only [optStrTruthy, optListTruthy, List.isEmpty_cons, Bool.not_false, Bool.false_or,
    Bool.not_true, Option.getD_some]
  rw [if_neg (by simp)]
  simp only [hproc]

/-- Behavior of summarize_chunks on an error-free state holding at least two
chunks whose fan-out fails: the failure message is captured, the prompts
having all been dispatched. -/
theorem summarize_chunks_multi_fail (svc : OllamaService) (http : String → HttpOutcome)
    {s : SummarizationState} (hs : s.error = none) {a b : TextChunk} {rest : List TextChunk}
    (hc : s.chunks = some (a :: b :: rest)) {e : String}
    (hproc : process_chunks_async svc http (chunkPrompts (a :: b :: rest)) = .error e) :
    summarize_chunks svc http s =
      ({ s with error := some ("Error summarizing chunks: " ++ e) },
       (chunkPrompts (a :: b :: rest)).length) := by
  unfold summarize_chunks
  rw [hs, hc]
  simp only [optStrTruthy, optListTruthy, List.isEmpty_cons, Bool.not_false, Bool.false_or,
    Bool.not_true, Option.getD_some]
  rw [if_neg (by simp)]
  simp only [hproc]

/-- Behavior of create_final_summary on an error-free state with non-empty
chunk summaries and a successful generation call. -/
theorem create_final_summary_ok (svc : OllamaService) (http : String → HttpOutcome) (t1 : ℚ)
    {s : SummarizationState} (hs : s.error = none) {sums : List String}
    (hc : s.chunk_summaries = some sums) (hne : sums.isEmpty = false)
    {resp : OllamaResponse}
    (hsync : generate_sync svc http
        (create_final_summary_prompt (String.intercalate "\n\n" sums)) = .ok resp) :
    create_final_summary svc http t1 s =
      ({ s with final_summary := pyStrip resp.content,
                processing_stats := some
                  (finalStats (s.processing_stats.getD {}) t1 s.original_text
                    (pyStrip resp.content)) }, 1) := by
  unfold create_final_summary finalStats
  rw [hs, hc]
  simp only [optStrTruthy, optListTruthy, hne, Bool.not_false, Bool.false_or, Bool.not_true,
    Option.getD_some]
  rw [if_neg (by simp)]
  simp only [hsync]

/-- Behavior of create_final_summary on an error-free state with non-empty
chunk summaries and a failing generation call: the failure message is
captured, the call having been issued. -/
theorem create_final_summary_fail (svc : OllamaService) (http : String → HttpOutcome) (t1 : ℚ)
    {s : SummarizationState} (hs : s.error = none) {sums : List String}
    (hc : s.chunk_summaries = some sums) (hne : sums.isEmpty = false) {e : String}
    (hsync : generate_sync svc http
        (create_final_summary_prompt (String.intercalate "\n\n" sums)) = .error e) :
    create_final_summary svc http t1 s =
      ({ s with error := some ("Error creating final summary: " ++ e) }, 1) := by
  unfold create_final_summary
  rw [hs, hc]
  simp only [optStrTruthy, optListTruthy, hne, Bool.not_false, Bool.false_or, Bool.not_true,
    Option.getD_some]
  rw [if_neg (by simp)]
  simp only [hsync]

/-- The call count reported by summarize_text is the workflow call count. -/
theorem summarize_text_calls (svc : OllamaService) (http : String → HttpOutcome)
    (chunker : String → Except String (List TextChunk)) (t0 t1 : ℚ) (text : String) :
    (summarize_text svc http chunker t0 t1 text).2
      = (workflow_run svc http chunker t0 t1 text).2 := by
  cases h : optStrTruthy (workflow_run svc http chunker t0 t1 text).1.error with
  | true => simp only [summarize_text, h, if_true]
  | false => simp only [summarize_text, h, Bool.false_eq_true, if_false]

/-- Full run of the LangGraph workflow on non-blank input chunked into exactly
one chunk, with a successful final generation: one backend call in total. -/
theorem workflow_run_single_ok (svc : OllamaService) (http : String → HttpOutcome)
    (chunker : String → Except String (List TextChunk)) (t0 t1 : ℚ) (text : String)
    (c : TextChunk) (resp : OllamaResponse)
    (htext : ¬ pyStrip text = "") (hchunk : chunker text = .ok [c])
    (hsync : generate_sync svc http
        (create_final_summary_prompt (String.intercalate "\n\n" [c.content])) = .ok resp) :
    workflow_run svc http chunker t0 t1 text =
      ({ original_text := text, chunks := some [c], chunk_summaries := some [c.content],
         final_summary := pyStrip resp.content,
         processing_stats := some
           (finalStats (chunkStats (parseStats t0 text) 1) t1 text (pyStrip resp.content)),
         error := none }, 1) := by
  have h1 : parse_input t0
      { original_text := text, chunks := none, chunk_summaries := none,
        final_summary := "", processing_stats := none, error := none }
      = { original_text := text, chunks := none, chunk_summaries := none,
          final_summary := "", processing_stats := some (parseStats t0 text), error := none } :=
    parse_input_nonblank t0 _ htext
  have h2 : chunk_text chunker
      { original_text := text, chunks := none, chunk_summaries := none,
        final_summary := "", processing_stats := some (parseStats t0 text), error := none }
      = { original_text := text, chunks := some [c], chunk_summaries := none,
          final_summary := "", processing_stats := some (chunkStats (parseStats t0 text) 1),
          error := none } :=
    chunk_text_ok chunker rfl hchunk
  have h3 : summarize_chunks svc http
      { original_text := text, chunks := some [c], chunk_summaries := none,
        final_summary := "", processing_stats := some (chunkStats (parseStats t0 text) 1),
        error := none }
      = ({ original_text := text, chunks := some [c], chunk_summaries := some [c.content],
           final_summary := "", processing_stats := some (chunkStats (parseStats t0 text) 1),
           error := none }, 0) :=
    summarize_chunks_single svc http rfl rfl
  have h4 : create_final_summary svc http t1
      { original_text := text, chunks := some [c], chunk_summaries := some [c.content],
        final_summary := "", processing_stats := some (chunkStats (parseStats t0 text) 1),
        error := none }
      = ({ original_text := text, chunks := some [c], chunk_summaries := some [c.content],
           final_summary := pyStrip resp.content,
           processing_stats := some
             (finalStats (chunkStats (parseStats t0 text) 1) t1 text (pyStrip resp.content)),
           error := none }, 1) :=
    create_final_summary_ok svc http t1 rfl rfl
      (show ([c.content] : List String).isEmpty = false from rfl) hsync
  unfold workflow_run
  simp only [h1, h2, h3, h4]

/-- Full run of the LangGraph workflow on non-blank input chunked into exactly
one chunk, with a failing final generation: still one backend call in total. -/
theorem workflow_run_single_fail (svc : OllamaService) (http : String → HttpOutcome)
    (chunker : String → Except String (List TextChunk)) (t0 t1 : ℚ) (text : String)
    (c : TextChunk) (e : String)
    (htext : ¬ pyStrip text = "") (hchunk : chunker text = .ok [c])
    (hsync : generate_sync svc http
        (create_final_summary_prompt (String.intercalate "\n\n" [c.content])) = .error e) :
    workflow_run svc http chunker t0 t1 text =
      ({ original_text := text, chunks := some [c], chunk_summaries := some [c.content],
         final_summary := "", processing_stats := some (chunkStats (parseStats t0 text) 1),
         error := some ("Error creating final summary: " ++ e) }, 1) := by
  have h1 : parse_input t0
      { original_text := text, chunks := none, chunk_summaries := none,
        final_summary := "", processing_stats := none, error := none }
      = { original_text := text, chunks := none, chunk_summaries := none,
          final_summary := "", processing_stats := some (parseStats t0 text), error := none } :=
    parse_input_nonblank t0 _ htext
  have h2 : chunk_text chunker
      { original_text := text, chunks := none, chunk_summaries := none,
        final_summary := "", processing_stats := some (parseStats t0 text), error := none }
      = { original_text := text, chunks := some [c], chunk_summaries := none,
          final_summary := "", processing_stats := some (chunkStats (parseStats t0 text) 1),
          error := none } :=
    chunk_text_ok chunker rfl hchunk
  have h3 : summarize_chunks svc http
      { original_text := text, chunks := some [c], chunk_summaries := none,
        final_summary := "", processing_stats := some (chunkStats (parseStats t0 text) 1),
        error := none }
      = ({ original_text := text, chunks := some [c], chunk_summaries := some [c.content],
           final_summary := "", processing_stats := some (chunkStats (parseStats t0 text) 1),
           error := none }, 0) :=
    summarize_chunks_single svc http rfl rfl
  have h4 : create_final_summary svc http t1
      { original_text := text, chunks := some [c], chunk_summaries := some [c.content],
        final_summary := "", processing_stats := some (chunkStats (parseStats t0 text) 1),
        error := none }
      = ({ original_text := text, chunks := some [c], chunk_summaries := some [c.content],
           final_summary := "", processing_stats := some (chunkStats (parseStats t0 text) 1),
           error := some ("Error creating final summary: " ++ e) }, 1) :=
    create_final_summary_fail svc http t1 rfl rfl
      (show ([c.content] : List String).isEmpty = false from rfl) hsync
  unfold workflow_run
  simp only [h1, h2, h3, h4]

/-- C4: input that chunks into exactly one chunk costs exactly one backend
generation call in either entry point: the LangGraph variant feeds the chunk
content straight into the one reduction call, the simple variant sends one
direct final-summary request. -/
theorem single_chunk_one_backend_call :
    ∀ (svc : OllamaService) (http : String → HttpOutcome)
      (chunker : String → Except String (List TextChunk)) (t0 t1 : ℚ) (text : String)
      (c : TextChunk),
      chunker text = .ok [c] → ¬ pyStrip text = "" →
      (summarize_text svc http chunker t0 t1 text).2 = 1
      ∧ (simple_summarize_text svc http chunker t0 t1 text).2 = 1 := by
  intro svc http chunker t0 t1 text c hchunk htext
  constructor
  · rw [summarize_text_calls]
    cases hsync : generate_sync svc http
        (create_final_summary_prompt (String.intercalate "\n\n" [c.content])) with
    | error e =>
      rw [workflow_run_single_fail svc http chunker t0 t1 text c e htext hchunk hsync]
    | ok resp =>
      rw [workflow_run_single_ok svc http chunker t0 t1 text c resp htext hchunk hsync]
  · unfold simple_summarize_text
    rw [hchunk]
    cases hsync : generate_sync svc http (create_final_summary_prompt c.content) with
    | error e => simp only [hsync]
    | ok resp => simp only [hsync]

/-- Witness for C4 on a concrete one-chunk input. -/
theorem single_chunk_one_backend_call_witness :
    (summarize_text svcW httpOkW chunkerOneW 0 2 "Hello.").2 = 1
    ∧ (simple_summarize_text svcW httpOkW chunkerOneW 0 2 "Hello.").2 = 1 :=
  single_chunk_one_backend_call svcW httpOkW chunkerOneW 0 2 "Hello."
    { content := "Hello." } rfl (by decide)

/-- A list of positive length is not empty. -/
theorem isEmpty_false_of_length_pos {α : Type} {l : List α} (h : 0 < l.length) :
    l.isEmpty = false := by
  cases l with
  | nil => cases h
  | cons a t => rfl

/-- One chunk prompt is built per chunk. -/
theorem chunkPrompts_length (cs : List TextChunk) : (chunkPrompts cs).length = cs.length := by
  simp [chunkPrompts]

/-- A successful fan-out returns one stripped summary per prompt. -/
theorem process_chunks_async_ok_length {svc : OllamaService} {http : String → HttpOutcome}
    {prompts : List String} {sums : List String}
    (h : process_chunks_async svc http prompts = .ok sums) : sums.length = prompts.length := by
  unfold process_chunks_async at h
  rw [show (generate_multiple_async (aenterService svc) http prompts).1
      = collectAll (prompts.map (fun p => (generate_async (aenterService svc) http p).1))
      from rfl] at h
  cases hcol : collectAll (prompts.map (fun p => (generate_async (aenterService svc) http p).1)) with
  | error e => rw [hcol] at h; simp [Except.map] at h
  | ok rs =>
    rw [hcol] at h
    simp only [Except.map] at h
    cases h
    have h2 := collectAll_ok_length hcol
    simp only [List.length_map] at h2 ⊢
    exact h2

/-- Behavior of summarize_chunks when the chunk list is empty: the guard fires
and the state flows through unchanged with no backend call. -/
theorem summarize_chunks_nochunks (svc : OllamaService) (http : String → HttpOutcome)
    {s : SummarizationState} (hc : s.chunks = some []) :
    summarize_chunks svc http s = (s, 0) := by
  unfold summarize_chunks
  rw [hc]
  simp only [optListTruthy, List.isEmpty_nil, Bool.not_true, Bool.not_false, Bool.or_true,
    if_true]

/-- Behavior of create_final_summary when no chunk summaries were recorded:
the guard fires and the state flows through unchanged with no backend call. -/
theorem create_final_summary_nosums (svc : OllamaService) (http : String → HttpOutcome)
    (t1 : ℚ) {s : SummarizationState} (hc : s.chunk_summaries = none) :
    create_final_summary svc http t1 s = (s, 0) := by
  unfold create_final_summary
  rw [hc]
  simp only [optListTruthy, Bool.not_false, Bool.or_true, if_true]

/-- Behavior of chunk_text on an error-free state whose chunking raises. -/
theorem chunk_text_fail (chunker : String → Except String (List TextChunk))
    {s : SummarizationState} (hs : s.error = none) {e : String}
    (hc : chunker s.original_text = .error e) :
    chunk_text chunker s = { s with error := some ("Error chunking text: " ++ e) } := by
  unfold chunk_text
  rw [hs, hc]
  rfl

/-- Full run of the LangGraph workflow on blank input: the parse_input
rejection short-circuits everything, with no backend call. -/
theorem workflow_run_blank (svc : OllamaService) (http : String → HttpOutcome)
    (chunker : String → Except String (List TextChunk)) (t0 t1 : ℚ) (text : String)
    (htext : pyStrip text = "") :
    workflow_run svc http chunker t0 t1 text =
      ({ original_text := text, chunks := none, chunk_summaries := none,
         final_summary := "", processing_stats := none,
         error := some "Empty input text" }, 0) := by
  have hne : ("Empty input text" : String) ≠ "" := by decide
  have hs1 : parse_input t0
      { original_text := text, chunks := none, chunk_summaries := none,
        final_summary := "", processing_stats := none, error := none }
      = { original_text := text, chunks := none, chunk_summaries := none,
          final_summary := "", processing_stats := none,
          error := some "Empty input text" } := by
    unfold parse_input
    rw [if_pos htext]
  have hct := chunk_text_error (s :=
    { original_text := text, chunks := none, chunk_summaries := none,
      final_summary := "", processing_stats := none,
      error := some "Empty input text" }) chunker rfl hne
  have hsc := summarize_chunks_error (s :=
    { original_text := text, chunks := none, chunk_summaries := none,
      final_summary := "", processing_stats := none,
      error := some "Empty input text" }) svc http rfl hne
  have hcf := create_final_summary_error (s :=
    { original_text := text, chunks := none, chunk_summaries := none,
      final_summary := "", processing_stats := none,
      error := some "Empty input text" }) svc http t1 rfl hne
  unfold workflow_run
  simp only [hs1, hct, hsc, hcf]

/-- Full run of the LangGraph workflow when the chunker raises: the chunking
error short-circuits the backend stages, with no backend call. -/
theorem workflow_run_chunkfail (svc : OllamaService) (http : String → HttpOutcome)
    (chunker : String → Except String (List TextChunk)) (t0 t1 : ℚ) (text : String)
    (e : String) (htext : ¬ pyStrip text = "") (hchunk : chunker text = .error e) :
    workflow_run svc http chunker t0 t1 text =
      ({ original_text := text, chunks := none, chunk_summaries := none,
         final_summary := "", processing_stats := some (parseStats t0 text),
         error := some ("Error chunking text: " ++ e) }, 0) := by
  have hne : ("Error chunking text: " ++ e) ≠ "" :=
    append_ne_empty_left e (by decide)
  have h1 : parse_input t0
      { original_text := text, chunks := none, chunk_summaries := none,
        final_summary := "", processing_stats := none, error := none }
      = { original_text := text, chunks := none, chunk_summaries := none,
          final_summary := "", processing_stats := some (parseStats t0 text), error := none } :=
    parse_input_nonblank t0 _ htext
  have h2 : chunk_text chunker
      { original_text := text, chunks := none, chunk_summaries := none,
        final_summary := "", processing_stats := some (parseStats t0 text), error := none }
      = { original_text := text, chunks := none, chunk_summaries := none,
          final_summary := "", processing_stats := some (parseStats t0 text),
          error := some ("Error chunking text: " ++ e) } :=
    chunk_text_fail chunker rfl hchunk
  have h3 := summarize_chunks_error (s :=
    { original_text := text, chunks := none, chunk_summaries := none,
      final_summary := "", processing_stats := some (parseStats t0 text),
      error := some ("Error chunking text: " ++ e) }) svc http rfl hne
  have h4 := create_final_summary_error (s :=
    { original_text := text, chunks := none, chunk_summaries := none,
      final_summary := "", processing_stats := some (parseStats t0 text),
      error := some ("Error chunking text: " ++ e) }) svc http t1 rfl hne
  unfold workflow_run
  simp only [h1, h2, h3, h4]

/-- Full run of the LangGraph workflow when the chunker yields no chunks on
non-blank input: both backend stages are skipped and the run ends error-free
with no final summary and no backend call. -/
theorem workflow_run_emptychunks (svc : OllamaService) (http : String → HttpOutcome)
    (chunker : String → Except String (List TextChunk)) (t0 t1 : ℚ) (text : String)
    (htext : ¬ pyStrip text = "") (hchunk : chunker text = .ok []) :
    workflow_run svc http chunker t0 t1 text =
      ({ original_text := text, chunks := some [], chunk_summaries := none,
         final_summary := "",
         processing_stats := some (chunkStats (parseStats t0 text) 0),
         error := none }, 0) := by
  have h1 : parse_input t0
      { original_text := text, chunks := none, chunk_summaries := none,
        final_summary := "", processing_stats := none, error := none }
      = { original_text := text, chunks := none, chunk_summaries := none,
          final_summary := "", processing_stats := some (parseStats t0 text), error := none } :=
    parse_input_nonblank t0 _ htext
  have h2 : chunk_text chunker
      { original_text := text, chunks := none, chunk_summaries := none,
        final_summary := "", processing_stats := some (parseStats t0 text), error := none }
      = { original_text := text, chunks := some [], chunk_summaries := none,
          final_summary := "", processing_stats := some (chunkStats (parseStats t0 text) 0),
          error := none } :=
    chunk_text_ok chunker rfl hchunk
  have h3 := summarize_chunks_nochunks (s :=
    { original_text := text, chunks := some [], chunk_summaries := none,
      final_summary := "", processing_stats := some (chunkStats (parseStats t0 text) 0),
      error := none }) svc http rfl
  have h4 := create_final_summary_nosums (s :=
    { original_text := text, chunks := some [], chunk_summaries := none,
      final_summary := "", processing_stats := some (chunkStats (parseStats t0 text) 0),
      error := none }) svc http t1 rfl
  unfold workflow_run
  simp only [h1, h2, h3, h4]

/-- Full run of the LangGraph workflow on non-blank input with at least two
chunks whose fan-out fails: the prompts were all dispatched but the reduction
stage is skipped. -/
theorem workflow_run_multi_procfail (svc : OllamaService) (http : String → HttpOutcome)
    (chunker : String → Except String (List TextChunk)) (t0 t1 : ℚ) (text : String)
    (a b : TextChunk) (rest : List TextChunk) (e : String)
    (htext : ¬ pyStrip text = "") (hchunk : chunker text = .ok (a :: b :: rest))
    (hproc : process_chunks_async svc http (chunkPrompts (a :: b :: rest)) = .error e) :
    workflow_run svc http chunker t0 t1 text =
      ({ original_text := text, chunks := some (a :: b :: rest), chunk_summaries := none,
         final_summary := "",
         processing_stats := some (chunkStats (parseStats t0 text) (a :: b :: rest).length),
         error := some ("Error summarizing chunks: " ++ e) },
       (chunkPrompts (a :: b :: rest)).length) := by
  have hne : ("Error summarizing chunks: " ++ e) ≠ "" :=
    append_ne_empty_left e (by decide)
  have h1 : parse_input t0
      { original_text := text, chunks := none, chunk_summaries := none,
        final_summary := "", processing_stats := none, error := none }
      = { original_text := text, chunks := none, chunk_summaries := none,
          final_summary := "", processing_stats := some (parseStats t0 text), error := none } :=
    parse_input_nonblank t0 _ htext
  have h2 : chunk_text chunker
      { original_text := text, chunks := none, chunk_summaries := none,
        final_summary := "", processing_stats := some (parseStats t0 text), error := none }
      = { original_text := text, chunks := some (a :: b :: rest), chunk_summaries := none,
          final_summary := "",
          processing_stats := some (chunkStats (parseStats t0 text) (a :: b :: rest).length),
          error := none } :=
    chunk_text_ok chunker rfl hchunk
  have h3 : summarize_chunks svc http
      { original_text := text, chunks := some (a :: b :: rest), chunk_summaries := none,
        final_summary := "",
        processing_stats := some (chunkStats (parseStats t0 text) (a :: b :: rest).length),
        error := none }
      = ({ original_text := text, chunks := some (a :: b :: rest), chunk_summaries := none,
           final_summary := "",
           processing_stats := some (chunkStats (parseStats t0 text) (a :: b :: rest).length),
           error := some ("Error summarizing chunks: " ++ e) },
         (chunkPrompts (a :: b :: rest)).length) :=
    summarize_chunks_multi_fail svc http rfl rfl hproc
  have h4 := create_final_summary_error (s :=
    { original_text := text, chunks := some (a :: b :: rest), chunk_summaries := none,
      final_summary := "",
      processing_stats := some (chunkStats (parseStats t0 text) (a :: b :: rest).length),
      error := some ("Error summarizing chunks: " ++ e) }) svc http t1 rfl hne
  unfold workflow_run
  simp only [h1, h2, h3, h4, Nat.add_zero]

/-- Full run of the LangGraph workflow on non-blank input with at least two
chunks whose fan-out succeeds but whose reduction call fails: one call more
than the chunk count was issued. -/
theorem workflow_run_multi_syncfail (svc : OllamaService) (http : String → HttpOutcome)
    (chunker : String → Except String (List TextChunk)) (t0 t1 : ℚ) (text : String)
    (a b : TextChunk) (rest : List TextChunk) (sums : List String) (e : String)
    (htext : ¬ pyStrip text = "") (hchunk : chunker text = .ok (a :: b :: rest))
    (hproc : process_chunks_async svc http (chunkPrompts (a :: b :: rest)) = .ok sums)
    (hsync : generate_sync svc http
        (create_final_summary_prompt (String.intercalate "\n\n" sums)) = .error e) :
    workflow_run svc http chunker t0 t1 text =
      ({ original_text := text, chunks := some (a :: b :: rest), chunk_summaries := some sums,
         final_summary := "",
         processing_stats := some
           { chunkStats (parseStats t0 text) (a :: b :: rest).length with
             chunks_summarized := some sums.length },
         error := some ("Error creating final summary: " ++ e) },
       (chunkPrompts (a :: b :: rest)).length + 1) := by
  have hsne : sums.isEmpty = false := by
    apply isEmpty_false_of_length_pos
    rw [process_chunks_async_ok_length hproc, chunkPrompts_length]
    simp
  have h1 : parse_input t0
      { original_text := text, chunks := none, chunk_summaries := none,
        final_summary := "", processing_stats := none, error := none }
      = { original_text := text, chunks := none, chunk_summaries := none,
          final_summary := "", processing_stats := some (parseStats t0 text), error := none } :=
    parse_input_nonblank t0 _ htext
  have h2 : chunk_text chunker
      { original_text := text, chunks := none, chunk_summaries := none,
        final_summary := "", processing_stats := some (parseStats t0 text), error := none }
      = { original_text := text, chunks := some (a :: b :: rest), chunk_summaries := none,
          final_summary := "",
          processing_stats := some (chunkStats (parseStats t0 text) (a :: b :: rest).length),
          error := none } :=
    chunk_text_ok chunker rfl hchunk
  have h3 : summarize_chunks svc http
      { original_text := text, chunks := some (a :: b :: rest), chunk_summaries := none,
        final_summary := "",
        processing_stats := some (chunkStats (parseStats t0 text) (a :: b :: rest).length),
        error := none }
      = ({ original_text := text, chunks := some (a :: b :: rest),
           chunk_summaries := some sums, final_summary := "",
           processing_stats := some
             { chunkStats (parseStats t0 text) (a :: b :: rest).length with
               chunks_summarized := some sums.length },
           error := none },
         (chunkPrompts (a :: b :: rest)).length) :=
    summarize_chunks_multi_ok svc http rfl rfl hproc
  have h4 : create_final_summary svc http t1
      { original_text := text, chunks := some (a :: b :: rest),
        chunk_summaries := some sums, final_summary := "",
        processing_stats := some
          { chunkStats (parseStats t0 text) (a :: b :: rest).length with
            chunks_summarized := some sums.length },
        error := none }
      = ({ original_text := text, chunks := some (a :: b :: rest),
           chunk_summaries := some sums, final_summary := "",
           processing_stats := some
             { chunkStats (parseStats t0 text) (a :: b :: rest).length with
               chunks_summarized := some sums.length },
           error := some ("Error creating final summary: " ++ e) }, 1) :=
    create_final_summary_fail svc http t1 rfl rfl hsne hsync
  unfold workflow_run
  simp only [h1, h2, h3, h4]

/-- Full run of the LangGraph workflow on non-blank input with at least two
chunks, all backend calls succeeding: chunk count plus one calls, full stats. -/
theorem workflow_run_multi_ok (svc : OllamaService) (http : String → HttpOutcome)
    (chunker : String → Except String (List TextChunk)) (t0 t1 : ℚ) (text : String)
    (a b : TextChunk) (rest : List TextChunk) (sums : List String) (resp : OllamaResponse)
    (htext : ¬ pyStrip text = "") (hchunk : chunker text = .ok (a :: b :: rest))
    (hproc : process_chunks_async svc http (chunkPrompts (a :: b :: rest)) = .ok sums)
    (hsync : generate_sync svc http
        (create_final_summary_prompt (String.intercalate "\n\n" sums)) = .ok resp) :
    workflow_run svc http chunker t0 t1 text =
      ({ original_text := text, chunks := some (a :: b :: rest), chunk_summaries := some sums,
         final_summary := pyStrip resp.content,
         processing_stats := some
           (finalStats
             { chunkStats (parseStats t0 text) (a :: b :: rest).length with
               chunks_summarized := some sums.length }
             t1 text (pyStrip resp.content)),
         error := none },
       (chunkPrompts (a :: b :: rest)).length + 1) := by
  have hsne : sums.isEmpty = false := by
    apply isEmpty_false_of_length_pos
    rw [process_chunks_async_ok_length hproc, chunkPrompts_length]
    simp
  have h1 : parse_input t0
      { original_text := text, chunks := none, chunk_summaries := none,
        final_summary := "", processing_stats := none, error := none }
      = { original_text := text, chunks := none, chunk_summaries := none,
          final_summary := "", processing_stats := some (parseStats t0 text), error := none } :=
    parse_input_nonblank t0 _ htext
  have h2 : chunk_text chunker
      { original_text := text, chunks := none, chunk_summaries := none,
        final_summary := "", processing_stats := some (parseStats t0 text), error := none }
      = { original_text := text, chunks := some (a :: b :: rest), chunk_summaries := none,
          final_summary := "",
          processing_stats := some (chunkStats (parseStats t0 text) (a :: b :: rest).length),
          error := none } :=
    chunk_text_ok chunker rfl hchunk
  have h3 : summarize_chunks svc http
      { original_text := text, chunks := some (a :: b :: rest), chunk_summaries := none,
        final_summary := "",
        processing_stats := some (chunkStats (parseStats t0 text) (a :: b :: rest).length),
        error := none }
      = ({ original_text := text, chunks := some (a :: b :: rest),
           chunk_summaries := some sums, final_summary := "",
           processing_stats := some
             { chunkStats (parseStats t0 text) (a :: b :: rest).length with
               chunks_summarized := some sums.length },
           error := none },
         (chunkPrompts (a :: b :: rest)).length) :=
    summarize_chunks_multi_ok svc http rfl rfl hproc
  have h4 : create_final_summary svc http t1
      { original_text := text, chunks := some (a :: b :: rest),
        chunk_summaries := some sums, final_summary := "",
        processing_stats := some
          { chunkStats (parseStats t0 text) (a :: b :: rest).length with
            chunks_summarized := some sums.length },
        error := none }
      = ({ original_text := text, chunks := some (a :: b :: rest),
           chunk_summaries := some sums, final_summary := pyStrip resp.content,
           processing_stats := some
             (finalStats
               { chunkStats (parseStats t0 text) (a :: b :: rest).length with
                 chunks_summarized := some sums.length }
               t1 text (pyStrip resp.content)),
           error := none }, 1) :=
    create_final_summary_ok svc http t1 rfl rfl hsne hsync
  unfold workflow_run
  simp only [h1, h2, h3, h4]

/-- Result assembly of summarize_text when the workflow ends error-free. -/
theorem summarize_text_of_run_ok {svc : OllamaService} {http : String → HttpOutcome}
    {chunker : String → Except String (List TextChunk)} {t0 t1 : ℚ} {text : String}
    {s : SummarizationState} {n : Nat}
    (hrun : workflow_run svc http chunker t0 t1 text = (s, n)) (hs : s.error = none) :
    (summarize_text svc http chunker t0 t1 text).1 =
      { summary := s.final_summary
        original_length := (s.processing_stats.getD {}).original_length.getD 0
        summary_length := (s.processing_stats.getD {}).final_summary_length.getD 0
        chunks_processed := (s.processing_stats.getD {}).chunks_summarized.getD 0
        processing_time := (s.processing_stats.getD {}).processing_time.getD 0
        compression_ratio := (s.processing_stats.getD {}).compression_ratio.getD 0
        error := none } := by
  have hfalse : optStrTruthy s.error = false := by rw [hs]; rfl
  unfold summarize_text
  simp only [hrun, hfalse, Bool.false_eq_true, if_false]

/-- Result assembly of summarize_text when the workflow ends with a non-empty
error message: the result keeps exactly that message and the empty summary. -/
theorem summarize_text_of_run_err {svc : OllamaService} {http : String → HttpOutcome}
    {chunker : String → Except String (List TextChunk)} {t0 t1 : ℚ} {text : String}
    {s : SummarizationState} {n : Nat} {e : String}
    (hrun : workflow_run svc http chunker t0 t1 text = (s, n)) (hs : s.error = some e)
    (he : e ≠ "") :
    (summarize_text svc http chunker t0 t1 text).1 =
      { summary := "", original_length := text.length, summary_length := 0,
        chunks_processed := 0, processing_time := 0, compression_ratio := 0,
        error := some e } := by
  unfold summarize_text
  simp only [hrun, hs, optStrTruthy_some he, if_true]

/-- The chunk_text stats update never touches the chunks_summarized key. -/
theorem chunkStats_chunks_summarized (st : ProcessingStats) (n : Nat) :
    (chunkStats st n).chunks_summarized = st.chunks_summarized := by
  unfold chunkStats
  split <;> rfl

/-- Counterexample to C3 as stated: a successful LangGraph run over exactly
one chunk reports chunks_processed = 0, not 1, because the single-chunk path
never writes the chunks_summarized stat. -/
theorem chunks_processed_counterexample :
    (summarize_text svcW httpOkW chunkerOneW 0 0 "Hello.").1.error = none
    ∧ (summarize_text svcW httpOkW chunkerOneW 0 0 "Hello.").1.chunks_processed = 0 :=
  ⟨rfl, rfl⟩

/-- C3 amended: on a successful run the simple variant's chunks_processed
equals the chunk count (so 1 for a single chunk), while the LangGraph
variant's equals the chunk count only when there are several chunks and is 0
when there is exactly one (its single-chunk shortcut skips the chunk
summarization stage and never records a count). -/
theorem chunks_processed_amended :
    ∀ (svc : OllamaService) (http : String → HttpOutcome)
      (chunker : String → Except String (List TextChunk)) (t0 t1 : ℚ) (text : String)
      (cs : List TextChunk),
      chunker text = .ok cs →
      ((simple_summarize_text svc http chunker t0 t1 text).1.error = none →
        (simple_summarize_text svc http chunker t0 t1 text).1.chunks_processed = cs.length)
      ∧ ((summarize_text svc http chunker t0 t1 text).1.error = none →
          (summarize_text svc http chunker t0 t1 text).1.chunks_processed
            = if cs.length = 1 then 0 else cs.length) := by
  intro svc http chunker t0 t1 text cs hchunk
  constructor
  · rcases cs with _ | ⟨c, _ | ⟨c2, rest⟩⟩
    · unfold simple_summarize_text
      rw [hchunk]
      intro h
      simp at h
    · unfold simple_summarize_text
      rw [hchunk]
      cases hsync : generate_sync svc http (create_final_summary_prompt c.content) with
      | error e => simp only [hsync]; intro h; simp at h
      | ok resp => simp only [hsync]; intro _; trivial
    · unfold simple_summarize_text
      rw [hchunk]
      cases hproc : process_chunks_async svc http (chunkPrompts (c :: c2 :: rest)) with
      | error e => simp only [hproc]; intro h; simp at h
      | ok sums =>
        simp only [hproc]
        cases hsync : generate_sync svc http
            (create_final_summary_prompt (String.intercalate "\n\n" sums)) with
        | error e => simp only [hsync]; intro h; simp at h
        | ok resp => simp only [hsync]; intro _; trivial
  · by_cases hblank : pyStrip text = ""
    · have hres := summarize_text_of_run_err
        (workflow_run_blank svc http chunker t0 t1 text hblank) rfl (by decide)
      intro h
      rw [hres] at h
      simp at h
    · rcases cs with _ | ⟨c, _ | ⟨c2, rest⟩⟩
      · have hres := summarize_text_of_run_ok
          (workflow_run_emptychunks svc http chunker t0 t1 text hblank hchunk) rfl
        intro _
        rw [hres]
        simp [chunkStats_chunks_summarized, parseStats]
      · cases hsync : generate_sync svc http
            (create_final_summary_prompt (String.intercalate "\n\n" [c.content])) with
        | error e =>
          have hres := summarize_text_of_run_err
            (workflow_run_single_fail svc http chunker t0 t1 text c e hblank hchunk hsync)
            rfl (append_ne_empty_left e (by decide))
          intro h
          rw [hres] at h
          simp at h
        | ok resp =>
          have hres := summarize_text_of_run_ok
            (workflow_run_single_ok svc http chunker t0 t1 text c resp hblank hchunk hsync)
            rfl
          intro _
          rw [hres]
          simp [finalStats, chunkStats_chunks_summarized, parseStats]
      · cases hproc : process_chunks_async svc http (chunkPrompts (c :: c2 :: rest)) with
        | error e =>
          have hres := summarize_text_of_run_err
            (workflow_run_multi_procfail svc http chunker t0 t1 text c c2 rest e hblank
              hchunk hproc)
            rfl (append_ne_empty_left e (by decide))
          intro h
          rw [hres] at h
          simp at h
        | ok sums =>
          cases hsync : generate_sync svc http
              (create_final_summary_prompt (String.intercalate "\n\n" sums)) with
          | error e2 =>
            have hres := summarize_text_of_run_err
              (workflow_run_multi_syncfail svc http chunker t0 t1 text c c2 rest sums e2
                hblank hchunk hproc hsync)
              rfl (append_ne_empty_left e2 (by decide))
            intro h
            rw [hres] at h
            simp at h
          | ok resp =>
            have hres := summarize_text_of_run_ok
              (workflow_run_multi_ok svc http chunker t0 t1 text c c2 rest sums resp
                hblank hchunk hproc hsync)
              rfl
            intro _
            rw [hres]
            have hlen : sums.length = (c :: c2 :: rest).length := by
              rw [process_chunks_async_ok_length hproc, chunkPrompts_length]
            rw [if_neg (by simp)]
            simp only [finalStats]
            simp [hlen]

/-- Witness for C3 amended: a two-chunk success reports 2 in both variants;
the single-chunk instantiation is covered by the counterexample run. -/
theorem chunks_processed_amended_witness :
    (simple_summarize_text svcW httpOkW chunkerTwoW 0 2 "A. B.").1.chunks_processed
      = ([{ content := "A." }, { content := "B." }] : List TextChunk).length
    ∧ (summarize_text svcW httpOkW chunkerTwoW 0 2 "A. B.").1.chunks_processed
      = if ([{ content := "A." }, { content := "B." }] : List TextChunk).length = 1 then 0
        else ([{ content := "A." }, { content := "B." }] : List TextChunk).length :=
  ⟨(chunks_processed_amended svcW httpOkW chunkerTwoW 0 2 "A. B."
      [{ content := "A." }, { content := "B." }] rfl).1 (by decide),
   (chunks_processed_amended svcW httpOkW chunkerTwoW 0 2 "A. B."
      [{ content := "A." }, { content := "B." }] rfl).2 (by decide)⟩

/-- The chunk_text stats update never touches the original_length key. -/
theorem chunkStats_original_length (st : ProcessingStats) (n : Nat) :
    (chunkStats st n).original_length = st.original_length := by
  unfold chunkStats
  split <;> rfl

/-- The chunk_text stats update never touches the final_summary_length key. -/
theorem chunkStats_final_summary_length (st : ProcessingStats) (n : Nat) :
    (chunkStats st n).final_summary_length = st.final_summary_length := by
  unfold chunkStats
  split <;> rfl

/-- The chunk_text stats update never touches the compression_ratio key. -/
theorem chunkStats_compression_ratio (st : ProcessingStats) (n : Nat) :
    (chunkStats st n).compression_ratio = st.compression_ratio := by
  unfold chunkStats
  split <;> rfl

/-- A string that is not empty has non-zero length. -/
theorem length_ne_zero_of_isEmpty_false {s : String} (h : s.isEmpty = false) :
    s.length ≠ 0 := by
  intro hl
  have hdata : s.data = [] := List.length_eq_zero.mp hl
  have hs : s = "" := String.ext hdata
  rw [hs] at h
  exact absurd h (by decide)

/-- An empty string has length zero. -/
theorem length_eq_zero_of_isEmpty_true {s : String} (h : s.isEmpty = true) : s.length = 0 := by
  rw [(String.isEmpty_iff s).mp h]
  rfl

/-- C6: in both entry points, compression_ratio is original_length divided by
summary_length whenever summary_length is non-zero, and exactly 0 whenever
summary_length is zero, with no division fault. -/
theorem compression_ratio_law :
    ∀ (svc : OllamaService) (http : String → HttpOutcome)
      (chunker : String → Except String (List TextChunk)) (t0 t1 : ℚ) (text : String),
      (((summarize_text svc http chunker t0 t1 text).1.summary_length ≠ 0 →
          (summarize_text svc http chunker t0 t1 text).1.compression_ratio
            = ((summarize_text svc http chunker t0 t1 text).1.original_length : ℚ)
              / ((summarize_text svc http chunker t0 t1 text).1.summary_length : ℚ))
        ∧ ((summarize_text svc http chunker t0 t1 text).1.summary_length = 0 →
            (summarize_text svc http chunker t0 t1 text).1.compression_ratio = 0))
      ∧ (((simple_summarize_text svc http chunker t0 t1 text).1.summary_length ≠ 0 →
          (simple_summarize_text svc http chunker t0 t1 text).1.compression_ratio
            = ((simple_summarize_text svc http chunker t0 t1 text).1.original_length : ℚ)
              / ((simple_summarize_text svc http chunker t0 t1 text).1.summary_length : ℚ))
        ∧ ((simple_summarize_text svc http chunker t0 t1 text).1.summary_length = 0 →
            (simple_summarize_text svc http chunker t0 t1 text).1.compression_ratio = 0)) := by
  intro svc http chunker t0 t1 text
  constructor
  · by_cases hblank : pyStrip text = ""
    · rw [summarize_text_of_run_err
        (workflow_run_blank svc http chunker t0 t1 text hblank) rfl (by decide)]
      exact ⟨fun h => absurd rfl h, fun _ => rfl⟩
    · cases hchunk : chunker text with
      | error e =>
        rw [summarize_text_of_run_err
          (workflow_run_chunkfail svc http chunker t0 t1 text e hblank hchunk) rfl
          (append_ne_empty_left e (by decide))]
        exact ⟨fun h => absurd rfl h, fun _ => rfl⟩
      | ok cs =>
        rcases cs with _ | ⟨c, _ | ⟨c2, rest⟩⟩
        · rw [summarize_text_of_run_ok
            (workflow_run_emptychunks svc http chunker t0 t1 text hblank hchunk) rfl]
          simp only [Option.getD_some, chunkStats_final_summary_length,
            chunkStats_compression_ratio, parseStats]
          exact ⟨fun h => absurd rfl h, fun _ => rfl⟩
        · cases hsync : generate_sync svc http
              (create_final_summary_prompt (String.intercalate "\n\n" [c.content])) with
          | error e =>
            rw [summarize_text_of_run_err
              (workflow_run_single_fail svc http chunker t0 t1 text c e hblank hchunk hsync)
              rfl (append_ne_empty_left e (by decide))]
            exact ⟨fun h => absurd rfl h, fun _ => rfl⟩
          | ok resp =>
            rw [summarize_text_of_run_ok
              (workflow_run_single_ok svc http chunker t0 t1 text c resp hblank hchunk hsync)
              rfl]
            simp only [finalStats, Option.getD_some, chunkStats_original_length, parseStats]
            cases hfe : (pyStrip resp.content).isEmpty with
            | true =>
              refine ⟨fun h => absurd (length_eq_zero_of_isEmpty_true hfe) h, fun _ => ?_⟩
              simp [hfe]
            | false =>
              refine ⟨fun _ => ?_, fun h => absurd h (length_ne_zero_of_isEmpty_false hfe)⟩
              simp [hfe]
        · cases hproc : process_chunks_async svc http (chunkPrompts (c :: c2 :: rest)) with
          | error e =>
            rw [summarize_text_of_run_err
              (workflow_run_multi_procfail svc http chunker t0 t1 text c c2 rest e hblank
                hchunk hproc)
              rfl (append_ne_empty_left e (by decide))]
            exact ⟨fun h => absurd rfl h, fun _ => rfl⟩
          | ok sums =>
            cases hsync : generate_sync svc http
                (create_final_summary_prompt (String.intercalate "\n\n" sums)) with
            | error e2 =>
              rw [summarize_text_of_run_err
                (workflow_run_multi_syncfail svc http chunker t0 t1 text c c2 rest sums e2
                  hblank hchunk hproc hsync)
                rfl (append_ne_empty_left e2 (by decide))]
              exact ⟨fun h => absurd rfl h, fun _ => rfl⟩
            | ok resp =>
              rw [summarize_text_of_run_ok
                (workflow_run_multi_ok svc http chunker t0 t1 text c c2 rest sums resp
                  hblank hchunk hproc hsync)
                rfl]
              simp only [finalStats, Option.getD_some, chunkStats_original_length, parseStats]
              cases hfe : (pyStrip resp.content).isEmpty with
              | true =>
                refine ⟨fun h => absurd (length_eq_zero_of_isEmpty_true hfe) h, fun _ => ?_⟩
                simp [hfe]
              | false =>
                refine ⟨fun _ => ?_, fun h => absurd h (length_ne_zero_of_isEmpty_false hfe)⟩
                simp [hfe]
  · cases hchunk : chunker text with
    | error e =>
      unfold simple_summarize_text
      rw [hchunk]
      exact ⟨fun h => absurd rfl h, fun _ => rfl⟩
    | ok cs =>
      rcases cs with _ | ⟨c, _ | ⟨c2, rest⟩⟩
      · unfold simple_summarize_text
        rw [hchunk]
        exact ⟨fun h => absurd rfl h, fun _ => rfl⟩
      · unfold simple_summarize_text
        rw [hchunk]
        cases hsync : generate_sync svc http (create_final_summary_prompt c.content) with
        | error e =>
          simp only [hsync]
          refine ⟨fun h => absurd rfl h, fun _ => ?_⟩
          trivial
        | ok resp =>
          simp only [hsync]
          cases hfe : (pyStrip resp.content).isEmpty with
          | true =>
            refine ⟨fun h => absurd (length_eq_zero_of_isEmpty_true hfe) h, fun _ => ?_⟩
            simp [hfe]
          | false =>
            refine ⟨fun _ => ?_, fun h => absurd h (length_ne_zero_of_isEmpty_false hfe)⟩
            simp [hfe]
      · unfold simple_summarize_text
        rw [hchunk]
        cases hproc : process_chunks_async svc http (chunkPrompts (c :: c2 :: rest)) with
        | error e =>
          simp only [hproc]
          refine ⟨fun h => absurd rfl h, fun _ => ?_⟩
          trivial
        | ok sums =>
          simp only [hproc]
          cases hsync : generate_sync svc http
              (create_final_summary_prompt (String.intercalate "\n\n" sums)) with
          | error e2 =>
            simp only [hsync]
            refine ⟨fun h => absurd rfl h, fun _ => ?_⟩
            trivial
          | ok resp =>
            simp only [hsync]
            cases hfe : (pyStrip resp.content).isEmpty with
            | true =>
              refine ⟨fun h => absurd (length_eq_zero_of_isEmpty_true hfe) h, fun _ => ?_⟩
              simp [hfe]
            | false =>
              refine ⟨fun _ => ?_, fun h => absurd h (length_ne_zero_of_isEmpty_false hfe)⟩
              simp [hfe]

/-- Concrete 1000-character input text matching the compression-ratio example
of the spec. -/
def textK : String := ⟨List.replicate 1000 'a'⟩

/-- Concrete backend returning a 100-character summary. -/
def httpK : String → HttpOutcome :=
  fun _ => .ok (200, { response := some ⟨List.replicate 100 's'⟩ })

/-- Concrete chunker outcome with a single chunk for the ratio example. -/
def chunkerK : String → Except String (List TextChunk) := fun _ => .ok [{ content := "k" }]

set_option maxRecDepth 100000 in
/-- Witness for C6: 1000 characters summarized into 100 give the ratio
original_length / summary_length. -/
theorem compression_ratio_law_witness :
    (simple_summarize_text svcW httpK chunkerK 0 1 textK).1.original_length = 1000
    ∧ (simple_summarize_text svcW httpK chunkerK 0 1 textK).1.summary_length = 100
    ∧ (simple_summarize_text svcW httpK chunkerK 0 1 textK).1.compression_ratio
        = ((simple_summarize_text svcW httpK chunkerK 0 1 textK).1.original_length : ℚ)
          / ((simple_summarize_text svcW httpK chunkerK 0 1 textK).1.summary_length : ℚ) :=
  ⟨by decide, by decide,
   (compression_ratio_law svcW httpK chunkerK 0 1 textK).2.1 (by decide)⟩

/-- A successful generate_sync call surfaces the decoded body content, so a
backend that never answers with blank content yields non-blank content. -/
theorem generate_sync_ok_content {svc : OllamaService} {http : String → HttpOutcome}
    {p : String} {r : OllamaResponse} (h : generate_sync svc http p = .ok r)
    (hblankfree : ∀ (q : String) (st : Nat) (b : OllamaBody), http q = .ok (st, b) →
      pyStrip (b.response.getD "") ≠ "") :
    pyStrip r.content ≠ "" := by
  unfold generate_sync at h
  cases hh : http p with
  | error e => rw [hh] at h; simp at h
  | ok sb =>
    obtain ⟨st, b⟩ := sb
    rw [hh] at h
    by_cases hst : 400 ≤ st
    · simp only [if_pos hst] at h
      simp at h
    · simp only [if_neg hst] at h
      cases h
      exact hblankfree p st b hh

/-- Counterexample to C1 as stated: on whitespace-only input the simple entry
point returns a result with BOTH a non-null error and a non-empty (marker)
summary, so neither of the two claimed outcomes holds. -/
theorem outcome_exclusive_counterexample :
    ¬ (((simple_summarize_text svcW httpOkW chunkerEmptyW 0 0 " ").1.error = none
        ∧ ((simple_summarize_text svcW httpOkW chunkerEmptyW 0 0 " ").1.original_length > 0 →
            (simple_summarize_text svcW httpOkW chunkerEmptyW 0 0 " ").1.summary ≠ ""))
      ∨ ((simple_summarize_text svcW httpOkW chunkerEmptyW 0 0 " ").1.error ≠ none
          ∧ (simple_summarize_text svcW httpOkW chunkerEmptyW 0 0 " ").1.summary = "")) := by
  decide

/-- C1 amended: provided the backend never returns blank content, an
error-free result carries a non-empty summary (for the LangGraph variant this
additionally needs the chunker to yield at least one chunk), and a result with
a non-null error carries an empty summary — except the simple variant's
no-chunks outcome, which pairs the error with the fixed marker summary. -/
theorem outcome_exclusive_amended :
    ∀ (svc : OllamaService) (http : String → HttpOutcome)
      (chunker : String → Except String (List TextChunk)) (t0 t1 : ℚ) (text : String),
      (∀ (q : String) (st : Nat) (b : OllamaBody), http q = .ok (st, b) →
        pyStrip (b.response.getD "") ≠ "") →
      ((summarize_text svc http chunker t0 t1 text).1.error ≠ none →
        (summarize_text svc http chunker t0 t1 text).1.summary = "")
      ∧ ((∀ cs, chunker text = .ok cs → cs ≠ []) →
          (summarize_text svc http chunker t0 t1 text).1.error = none →
          (summarize_text svc http chunker t0 t1 text).1.summary ≠ "")
      ∧ ((simple_summarize_text svc http chunker t0 t1 text).1.error = none →
          (simple_summarize_text svc http chunker t0 t1 text).1.summary ≠ "")
      ∧ ((simple_summarize_text svc http chunker t0 t1 text).1.error ≠ none →
          (simple_summarize_text svc http chunker t0 t1 text).1.summary = ""
          ∨ ((simple_summarize_text svc http chunker t0 t1 text).1.summary
              = "No content to summarize."
            ∧ (simple_summarize_text svc http chunker t0 t1 text).1.error
              = some "No chunks created from input text")) := by
  intro svc http chunker t0 t1 text hblankfree
  refine ⟨?_, ?_, ?_, ?_⟩
  · by_cases hblank : pyStrip text = ""
    · rw [summarize_text_of_run_err
        (workflow_run_blank svc http chunker t0 t1 text hblank) rfl (by decide)]
      intro _
      rfl
    · cases hchunk : chunker text with
      | error e =>
        rw [summarize_text_of_run_err
          (workflow_run_chunkfail svc http chunker t0 t1 text e hblank hchunk) rfl
          (append_ne_empty_left e (by decide))]
        intro _
        rfl
      | ok cs =>
        rcases cs with _ | ⟨c, _ | ⟨c2, rest⟩⟩
        · rw [summarize_text_of_run_ok
            (workflow_run_emptychunks svc http chunker t0 t1 text hblank hchunk) rfl]
          intro h
          exact absurd rfl h
        · cases hsync : generate_sync svc http
              (create_final_summary_prompt (String.intercalate "\n\n" [c.content])) with
          | error e =>
            rw [summarize_text_of_run_err
              (workflow_run_single_fail svc http chunker t0 t1 text c e hblank hchunk hsync)
              rfl (append_ne_empty_left e (by decide))]
            intro _
            rfl
          | ok resp =>
            rw [summarize_text_of_run_ok
              (workflow_run_single_ok svc http chunker t0 t1 text c resp hblank hchunk hsync)
              rfl]
            intro h
            exact absurd rfl h
        · cases hproc : process_chunks_async svc http (chunkPrompts (c :: c2 :: rest)) with
          | error e =>
            rw [summarize_text_of_run_err
              (workflow_run_multi_procfail svc http chunker t0 t1 text c c2 rest e hblank
                hchunk hproc)
              rfl (append_ne_empty_left e (by decide))]
            intro _
            rfl
          | ok sums =>
            cases hsync : generate_sync svc http
                (create_final_summary_prompt (String.intercalate "\n\n" sums)) with
            | error e2 =>
              rw [summarize_text_of_run_err
                (workflow_run_multi_syncfail svc http chunker t0 t1 text c c2 rest sums e2
                  hblank hchunk hproc hsync)
                rfl (append_ne_empty_left e2 (by decide))]
              intro _
              rfl
            | ok resp =>
              rw [summarize_text_of_run_ok
                (workflow_run_multi_ok svc http chunker t0 t1 text c c2 rest sums resp
                  hblank hchunk hproc hsync)
                rfl]
              intro h
              exact absurd rfl h
  · intro hcs
    by_cases hblank : pyStrip text = ""
    · rw [summarize_text_of_run_err
        (workflow_run_blank svc http chunker t0 t1 text hblank) rfl (by decide)]
      intro h
      simp at h
    · cases hchunk : chunker text with
      | error e =>
        rw [summarize_text_of_run_err
          (workflow_run_chunkfail svc http chunker t0 t1 text e hblank hchunk) rfl
          (append_ne_empty_left e (by decide))]
        intro h
        simp at h
      | ok cs =>
        rcases cs with _ | ⟨c, _ | ⟨c2, rest⟩⟩
        · exact absurd rfl (hcs [] hchunk)
        · cases hsync : generate_sync svc http
              (create_final_summary_prompt (String.intercalate "\n\n" [c.content])) with
          | error e =>
            rw [summarize_text_of_run_err
              (workflow_run_single_fail svc http chunker t0 t1 text c e hblank hchunk hsync)
              rfl (append_ne_empty_left e (by decide))]
            intro h
            simp at h
          | ok resp =>
            rw [summarize_text_of_run_ok
              (workflow_run_single_ok svc http chunker t0 t1 text c resp hblank hchunk hsync)
              rfl]
            intro _
            exact generate_sync_ok_content hsync hblankfree
        · cases hproc : process_chunks_async svc http (chunkPrompts (c :: c2 :: rest)) with
          | error e =>
            rw [summarize_text_of_run_err
              (workflow_run_multi_procfail svc http chunker t0 t1 text c c2 rest e hblank
                hchunk hproc)
              rfl (append_ne_empty_left e (by decide))]
            intro h
            simp at h
          | ok sums =>
            cases hsync : generate_sync svc http
                (create_final_summary_prompt (String.intercalate "\n\n" sums)) with
            | error e2 =>
              rw [summarize_text_of_run_err
                (workflow_run_multi_syncfail svc http chunker t0 t1 text c c2 rest sums e2
                  hblank hchunk hproc hsync)
                rfl (append_ne_empty_left e2 (by decide))]
              intro h
              simp at h
            | ok resp =>
              rw [summarize_text_of_run_ok
                (workflow_run_multi_ok svc http chunker t0 t1 text c c2 rest sums resp
                  hblank hchunk hproc hsync)
                rfl]
              intro _
              exact generate_sync_ok_content hsync hblankfree
  · cases hchunk : chunker text with
    | error e =>
      unfold simple_summarize_text
      rw [hchunk]
      intro h
      simp at h
    | ok cs =>
      rcases cs with _ | ⟨c, _ | ⟨c2, rest⟩⟩
      · unfold simple_summarize_text
        rw [hchunk]
        intro h
        simp at h
      · unfold simple_summarize_text
        rw [hchunk]
        cases hsync : generate_sync svc http (create_final_summary_prompt c.content) with
        | error e =>
          simp only [hsync]
          intro h
          simp at h
        | ok resp =>
          simp only [hsync]
          intro _
          exact generate_sync_ok_content hsync hblankfree
      · unfold simple_summarize_text
        rw [hchunk]
        cases hproc : process_chunks_async svc http (chunkPrompts (c :: c2 :: rest)) with
        | error e =>
          simp only [hproc]
          intro h
          simp at h
        | ok sums =>
          simp only [hproc]
          cases hsync : generate_sync svc http
              (create_final_summary_prompt (String.intercalate "\n\n" sums)) with
          | error e2 =>
            simp only [hsync]
            intro h
            simp at h
          | ok resp =>
            simp only [hsync]
            intro _
            exact generate_sync_ok_content hsync hblankfree
  · cases hchunk : chunker text with
    | error e =>
      unfold simple_summarize_text
      rw [hchunk]
      intro _
      exact Or.inl rfl
    | ok cs =>
      rcases cs with _ | ⟨c, _ | ⟨c2, rest⟩⟩
      · unfold simple_summarize_text
        rw [hchunk]
        intro _
        exact Or.inr ⟨rfl, rfl⟩
      · unfold simple_summarize_text
        rw [hchunk]
        cases hsync : generate_sync svc http (create_final_summary_prompt c.content) with
        | error e =>
          simp only [hsync]
          intro _
          left
          trivial
        | ok resp =>
          simp only [hsync]
          intro h
          exact absurd rfl h
      · unfold simple_summarize_text
        rw [hchunk]
        cases hproc : process_chunks_async svc http (chunkPrompts (c :: c2 :: rest)) with
        | error e =>
          simp only [hproc]
          intro _
          left
          trivial
        | ok sums =>
          simp only [hproc]
          cases hsync : generate_sync svc http
              (create_final_summary_prompt (String.intercalate "\n\n" sums)) with
          | error e2 =>
            simp only [hsync]
            intro _
            left
            trivial
          | ok resp =>
            simp only [hsync]
            intro h
            exact absurd rfl h

/-- Witness for C1 amended at a concrete non-blank-content backend and a
one-chunk chunker. -/
theorem outcome_exclusive_amended_witness :
    ((summarize_text svcW httpOkW chunkerOneW 0 1 "Hello.").1.error ≠ none →
      (summarize_text svcW httpOkW chunkerOneW 0 1 "Hello.").1.summary = "")
    ∧ ((∀ cs, chunkerOneW "Hello." = .ok cs → cs ≠ []) →
        (summarize_text svcW httpOkW chunkerOneW 0 1 "Hello.").1.error = none →
        (summarize_text svcW httpOkW chunkerOneW 0 1 "Hello.").1.summary ≠ "")
    ∧ ((simple_summarize_text svcW httpOkW chunkerOneW 0 1 "Hello.").1.error = none →
        (simple_summarize_text svcW httpOkW chunkerOneW 0 1 "Hello.").1.summary ≠ "")
    ∧ ((simple_summarize_text svcW httpOkW chunkerOneW 0 1 "Hello.").1.error ≠ none →
        (simple_summarize_text svcW httpOkW chunkerOneW 0 1 "Hello.").1.summary = ""
        ∨ ((simple_summarize_text svcW httpOkW chunkerOneW 0 1 "Hello.").1.summary
            = "No content to summarize."
          ∧ (simple_summarize_text svcW httpOkW chunkerOneW 0 1 "Hello.").1.error
            = some "No chunks created from input text")) :=
  outcome_exclusive_amended svcW httpOkW chunkerOneW 0 1 "Hello."
    (fun q st b h => by cases h; decide)

end Transcripto
